import Mathlib

/-!
A shallow embedding of the virtual-quadrant augmentation layer of
p4est_virtual.c: the per-element classifier (interior and parallel-boundary
modes), the per-level offset bookkeeping, the ghost renumbering pass, the
mirror resolver and the memory accounting, together with theorems relating
their outputs to the specified invariants.
-/

/-- Connectivity mode (p4est_connect_type_t): which neighbor directions are
inspected.  FACE inspects face directions only, EDGE additionally edges (3D),
FULL additionally corner directions. -/
inductive Btype where
  | face
  | edge
  | full
deriving DecidableEq

/-- Compile-time geometric constants of the forest: number of face, edge and
corner directions and the maximal quadrant level (P4EST_FACES, P8EST_EDGES,
P4EST_CHILDREN, P4EST_QMAXLEVEL).  Kept abstract so the development covers the
2D and the 3D instantiation alike. -/
structure Geom where
  faces : Nat
  edges : Nat
  children : Nat
  qmaxlevel : Nat

/-- The direction count imax computed by the switch over the connect type in
has_virtuals_inner / has_virtuals_parallel_boundary / p4est_virtual_ghost_new. -/
def nDirs (geo : Geom) : Btype → Nat
  | .face => geo.faces
  | .edge => geo.faces + geo.edges
  | .full => geo.faces + geo.edges + geo.children

/-- One entry of the parallel neighbor sequences returned by
p4est_mesh_get_neighbors: the neighbor quadrant's level, its encoding and its
local-or-ghost index. -/
structure Neighbor where
  level : Nat
  enc : Int
  qid : Nat
deriving DecidableEq

/-- The read-only collaborators of the builders: quadrant levels, the neighbor
query, the optional parallel_boundary array, ghost ownership and mirror ids. -/
structure Mesh where
  local_num_quadrants : Nat
  ghost_num_quadrants : Nat
  quad_level : Nat → Nat
  ghost_level : Nat → Nat
  neighbors : Nat → Nat → List Neighbor
  parallel_boundary : Option (Nat → Int)
  ghost_to_proc : Nat → Nat
  mirror_qid : Nat → Nat

/-- Count of indices below k satisfying p. -/
def cntP (k : Nat) (p : Nat → Bool) : Nat :=
  (List.range k).countP p

/-- Ascending list of indices below k satisfying p. -/
def filP (k : Nat) (p : Nat → Bool) : List Nat :=
  (List.range k).filter p

/-- State of the augmentation while pass 1 (the owned scan) runs: the two flag
arrays, the rolling token, the per-level counters and the owned offset and
level-list arrays of p4est_virtual_t. -/
structure BuildState where
  virtual_qflags : Nat → Int
  virtual_gflags : Nat → Int
  last_virtual : Int
  lq_per_level_real : Nat → Nat
  lq_per_level_virt : Nat → Nat
  quad_qreal_offset : Nat → Int
  quad_qvirtual_offset : Nat → Int
  virtual_qlevels : Nat → List Nat

/-- The neighbor scan of has_virtuals_inner: stop at the first neighbor whose
level exceeds the current quadrant's level (the loop condition
"!has_virtuals && i < imax" together with the inner break). -/
def hasFinerNb (geo : Geom) (bt : Btype) (m : Mesh) (qid : Nat) : Bool :=
  (List.range (nDirs geo bt)).any fun dir =>
    (m.neighbors qid dir).any fun nb => decide (m.quad_level qid < nb.level)

/-- The bookkeeping shared by both classifier modes: record the real offset and
advance the per-level real counter, and when the element hosts virtuals assign
the rolling token to virtual_qflags, record the virtual offset, advance the
per-level virtual counter and append the element to its level list.  The offset
and level-list updates happen only when the offset arrays were allocated
(cll mirrors "virtual_quads->quad_qreal_offset != NULL"). -/
def bookkeepOwned (geo : Geom) (cll : Bool) (qid level : Nat) (hv : Bool)
    (s : BuildState) : BuildState :=
  let s1 :=
    if cll then
      { s with
        quad_qreal_offset := Function.update s.quad_qreal_offset qid
          ((s.lq_per_level_real level + geo.children * s.lq_per_level_virt level : Nat) : Int)
        lq_per_level_real := Function.update s.lq_per_level_real level
          (s.lq_per_level_real level + 1) }
    else s
  if hv then
    let s2 :=
      { s1 with
        virtual_qflags := Function.update s1.virtual_qflags qid (s1.last_virtual + 1)
        last_virtual := s1.last_virtual + 1 }
    if cll then
      { s2 with
        quad_qvirtual_offset := Function.update s2.quad_qvirtual_offset qid
          ((s2.lq_per_level_real (level + 1) +
            geo.children * s2.lq_per_level_virt (level + 1) : Nat) : Int)
        lq_per_level_virt := Function.update s2.lq_per_level_virt (level + 1)
          (s2.lq_per_level_virt (level + 1) + 1)
        virtual_qlevels := Function.update s2.virtual_qlevels (level + 1)
          (s2.virtual_qlevels (level + 1) ++ [qid]) }
    else s2
  else s1

/-- has_virtuals_inner: classify an interior element (short-circuit scan, ghost
flags untouched) and run the shared bookkeeping. -/
def has_virtuals_inner (geo : Geom) (bt : Btype) (cll : Bool) (m : Mesh)
    (qid : Nat) (s : BuildState) : BuildState :=
  bookkeepOwned geo cll qid (m.quad_level qid) (hasFinerNb geo bt m qid) s

/-- One neighbor step of the boundary-mode scan: a strictly finer neighbor sets
has_virtuals; otherwise a neighbor whose id lies in the inclusive interval
[lq, lq+gq] and whose level is strictly coarser marks the ghost flag at
index qid - lq. -/
def scanStep (lq gq level : Nat) (acc : Bool × (Nat → Int)) (nb : Neighbor) :
    Bool × (Nat → Int) :=
  if level < nb.level then (true, acc.2)
  else if lq ≤ nb.qid ∧ nb.qid ≤ lq + gq ∧ nb.level < level then
    (acc.1, Function.update acc.2 (nb.qid - lq) 1)
  else acc

/-- The boundary-mode traversal over a list of directions, threading the
has_virtuals flag and the ghost flag array through every neighbor (no early
exit). -/
def scanDirList (m : Mesh) (qid : Nat) (dirs : List Nat)
    (acc : Bool × (Nat → Int)) : Bool × (Nat → Int) :=
  dirs.foldl (fun a dir =>
    (m.neighbors qid dir).foldl
      (scanStep m.local_num_quadrants m.ghost_num_quadrants (m.quad_level qid)) a) acc

/-- has_virtuals_parallel_boundary: traverse all directions, marking coarser
ghost neighbors in virtual_gflags, then run the shared bookkeeping. -/
def has_virtuals_parallel_boundary (geo : Geom) (bt : Btype) (cll : Bool)
    (m : Mesh) (qid : Nat) (s : BuildState) : BuildState :=
  let res := scanDirList m qid (List.range (nDirs geo bt)) (false, s.virtual_gflags)
  bookkeepOwned geo cll qid (m.quad_level qid) res.1
    { s with virtual_gflags := res.2 }

/-- The dispatch condition of pass 1: interior mode is chosen exactly when the
mesh carries a parallel_boundary array whose entry is -1. -/
def routeInner (m : Mesh) (qid : Nat) : Bool :=
  match m.parallel_boundary with
  | some pb => decide (pb qid = -1)
  | none => false

/-- Pass-1 body parametrized by an arbitrary routing decision, so that the
interior short-circuit and the full boundary traversal can be compared. -/
def processOwnedR (geo : Geom) (bt : Btype) (cll : Bool) (m : Mesh)
    (route : Nat → Bool) (s : BuildState) (qid : Nat) : BuildState :=
  if route qid then has_virtuals_inner geo bt cll m qid s
  else has_virtuals_parallel_boundary geo bt cll m qid s

/-- The freshly allocated augmentation: flag and offset arrays filled with -1,
counters zero, level lists empty, rolling token -1. -/
def initBuildState : BuildState where
  virtual_qflags := fun _ => -1
  virtual_gflags := fun _ => -1
  last_virtual := -1
  lq_per_level_real := fun _ => 0
  lq_per_level_virt := fun _ => 0
  quad_qreal_offset := fun _ => -1
  quad_qvirtual_offset := fun _ => -1
  virtual_qlevels := fun _ => []

/-- The owned scan of p4est_virtual_new_ext run over the first k elements. -/
def pass1Fold (geo : Geom) (bt : Btype) (cll : Bool) (m : Mesh)
    (route : Nat → Bool) (k : Nat) : BuildState :=
  (List.range k).foldl (processOwnedR geo bt cll m route) initBuildState

/-- The complete owned scan under a given routing decision. -/
def pass1R (geo : Geom) (bt : Btype) (cll : Bool) (m : Mesh)
    (route : Nat → Bool) : BuildState :=
  pass1Fold geo bt cll m route m.local_num_quadrants

/-- State of pass 2 (the ghost scan): ghost flags being renumbered, the fresh
counter, the ghost per-level counters and the ghost offset and level lists. -/
structure GhostState where
  virtual_gflags : Nat → Int
  last_virtual : Int
  gq_per_level_real : Nat → Nat
  gq_per_level_virt : Nat → Nat
  quad_greal_offset : Nat → Int
  quad_gvirtual_offset : Nat → Int
  virtual_glevels : Nat → List Nat

/-- One iteration of the ghost loop of p4est_virtual_new_ext: record the ghost
real offset, and when the ghost was marked in pass 1 rewrite its flag to the
running dense index, record its virtual offset and append it to its level
list. -/
def processGhost (geo : Geom) (cll : Bool) (m : Mesh) (s : GhostState)
    (gid : Nat) : GhostState :=
  let level := m.ghost_level gid
  let s1 :=
    if cll then
      { s with
        quad_greal_offset := Function.update s.quad_greal_offset gid
          ((s.gq_per_level_real level + geo.children * s.gq_per_level_virt level : Nat) : Int)
        gq_per_level_real := Function.update s.gq_per_level_real level
          (s.gq_per_level_real level + 1) }
    else s
  if s1.virtual_gflags gid ≠ -1 then
    let s2 :=
      { s1 with
        virtual_gflags := Function.update s1.virtual_gflags gid s1.last_virtual
        last_virtual := s1.last_virtual + 1 }
    if cll then
      { s2 with
        quad_gvirtual_offset := Function.update s2.quad_gvirtual_offset gid
          ((s2.gq_per_level_real (level + 1) +
            geo.children * s2.gq_per_level_virt (level + 1) : Nat) : Int)
        gq_per_level_virt := Function.update s2.gq_per_level_virt (level + 1)
          (s2.gq_per_level_virt (level + 1) + 1)
        virtual_glevels := Function.update s2.virtual_glevels (level + 1)
          (s2.virtual_glevels (level + 1) ++ [gid]) }
    else s2
  else s1

/-- Pass-2 start state: ghost flags as pass 1 left them, fresh counter zero. -/
def initGhostState (gf0 : Nat → Int) : GhostState where
  virtual_gflags := gf0
  last_virtual := 0
  gq_per_level_real := fun _ => 0
  gq_per_level_virt := fun _ => 0
  quad_greal_offset := fun _ => -1
  quad_gvirtual_offset := fun _ => -1
  virtual_glevels := fun _ => []

/-- The ghost scan run over the first k ghosts. -/
def pass2Fold (geo : Geom) (cll : Bool) (m : Mesh) (gf0 : Nat → Int)
    (k : Nat) : GhostState :=
  (List.range k).foldl (processGhost geo cll m) (initGhostState gf0)

/-- The complete ghost scan. -/
def pass2 (geo : Geom) (cll : Bool) (m : Mesh) (gf0 : Nat → Int) : GhostState :=
  pass2Fold geo cll m gf0 m.ghost_num_quadrants

/-- The finished augmentation p4est_virtual_t as exposed to downstream
kernels. -/
structure PVirtual where
  btype : Btype
  local_num_quadrants : Nat
  ghost_num_quadrants : Nat
  virtual_qflags : Nat → Int
  virtual_gflags : Nat → Int
  has_level_lists : Bool
  quad_qreal_offset : Nat → Int
  quad_qvirtual_offset : Nat → Int
  quad_greal_offset : Nat → Int
  quad_gvirtual_offset : Nat → Int
  virtual_qlevels : Nat → List Nat
  virtual_glevels : Nat → List Nat

/-- p4est_virtual_new_ext: allocate, run the owned scan with the
parallel_boundary dispatch, then the ghost scan, and expose the results. -/
def p4est_virtual_new_ext (geo : Geom) (m : Mesh) (bt : Btype) (cll : Bool) :
    PVirtual :=
  let s1 := pass1R geo bt cll m (routeInner m)
  let s2 := pass2 geo cll m s1.virtual_gflags
  { btype := bt
    local_num_quadrants := m.local_num_quadrants
    ghost_num_quadrants := m.ghost_num_quadrants
    virtual_qflags := s1.virtual_qflags
    virtual_gflags := s2.virtual_gflags
    has_level_lists := cll
    quad_qreal_offset := s1.quad_qreal_offset
    quad_qvirtual_offset := s1.quad_qvirtual_offset
    quad_greal_offset := s2.quad_greal_offset
    quad_gvirtual_offset := s2.quad_gvirtual_offset
    virtual_qlevels := s1.virtual_qlevels
    virtual_glevels := s2.virtual_glevels }

/-- p4est_virtual_new: the constructor without level lists. -/
def p4est_virtual_new (geo : Geom) (m : Mesh) (bt : Btype) : PVirtual :=
  p4est_virtual_new_ext geo m bt false

/-- The ghost layer data consumed by the mirror resolver: the rank count and
the mirror_proc_offsets array delimiting each rank's mirror slots. -/
structure GhostLayer where
  mpisize : Nat
  mirror_proc_offsets : Nat → Nat

/-- The mirror assignment p4est_virtual_ghost_t. -/
structure PVirtualGhost where
  btype : Btype
  mirror_proc_virtuals : Nat → Int

/-- The index list of the C loop "for (i = a; i < b; ++i)". -/
def rangeFromTo (a b : Nat) : List Nat :=
  (List.range (b - a)).map fun i => a + i

/-- One neighbor step of the mirror resolver: a ghost neighbor owned by the
target rank whose encoding is negative sets the slot's flag to 1. -/
def ghostNewNbStep (m : Mesh) (proc mirror_idx : Nat) (mpv : Nat → Int)
    (nb : Neighbor) : Nat → Int :=
  if m.local_num_quadrants ≤ nb.qid ∧
      nb.qid < m.local_num_quadrants + m.ghost_num_quadrants then
    if m.ghost_to_proc (nb.qid - m.local_num_quadrants) = proc then
      if nb.enc < 0 then Function.update mpv mirror_idx 1 else mpv
    else mpv
  else mpv

/-- The per-mirror body of p4est_virtual_ghost_new.  Note the guard is the C
truth test "if (virtual_quads->virtual_qflags[mirror_qid])", i.e. the scan
runs exactly when the flag is nonzero. -/
def ghostNewMirror (geo : Geom) (bt : Btype) (m : Mesh) (v : PVirtual)
    (proc : Nat) (mpv : Nat → Int) (mirror_idx : Nat) : Nat → Int :=
  if v.virtual_qflags (m.mirror_qid mirror_idx) ≠ 0 then
    (List.range (nDirs geo bt)).foldl (fun acc dir =>
      (m.neighbors (m.mirror_qid mirror_idx) dir).foldl
        (ghostNewNbStep m proc mirror_idx) acc) mpv
  else mpv

/-- p4est_virtual_ghost_new: fill mirror_proc_virtuals (allocated zero) by
scanning, for each rank, each mirror slot's neighbors. -/
def p4est_virtual_ghost_new (geo : Geom) (m : Mesh) (gl : GhostLayer)
    (v : PVirtual) (bt : Btype) : PVirtualGhost :=
  let mpv :=
    (List.range gl.mpisize).foldl (fun acc proc =>
      (rangeFromTo (gl.mirror_proc_offsets proc) (gl.mirror_proc_offsets (proc + 1))).foldl
        (ghostNewMirror geo bt m v proc) acc)
      (fun _ => 0)
  { btype := bt, mirror_proc_virtuals := mpv }

/-- Modelled from the spec: sc_array_memory_used (the sc library is not part of
this repository) is taken as the byte size of the list body, element size times
element count, matching the spec's "per-level list bodies". -/
def sc_array_memory_used_body (elem_size count : Nat) : Nat :=
  elem_size * count

/-- p4est_virtual_memory_used: flag arrays, optional offset arrays, optional
per-level list headers and bodies, plus the structure header.  The byte sizes
of p4est_locidx_t, sc_array_t and p4est_virtual_t are abstract parameters. -/
def p4est_virtual_memory_used (geo : Geom) (szLoc szArr szHdr : Nat)
    (v : PVirtual) : Nat :=
  let lqz := v.local_num_quadrants
  let ngz := v.ghost_num_quadrants
  let mem_flags := (lqz + ngz) * szLoc
  let mem_offset := if v.has_level_lists then 2 * (lqz + ngz) * szLoc else 0
  let mem_levels :=
    if v.has_level_lists then
      2 * szArr * (geo.qmaxlevel + 1) +
        ((List.range (geo.qmaxlevel + 1)).map fun l =>
          sc_array_memory_used_body szLoc (v.virtual_qlevels l).length +
          sc_array_memory_used_body szLoc (v.virtual_glevels l).length).sum
    else 0
  mem_flags + mem_offset + mem_levels + szHdr

/-- p4est_virtual_ghost_memory_used: the source returns the constant 0. -/
def p4est_virtual_ghost_memory_used (_vg : PVirtualGhost) : Nat :=
  0

/-- Spec predicate: element qid has a strictly finer neighbor in some direction
of the connect type. -/
def FinerNb (geo : Geom) (bt : Btype) (m : Mesh) (qid : Nat) : Prop :=
  ∃ dir ∈ List.range (nDirs geo bt), ∃ nb ∈ m.neighbors qid dir,
    m.quad_level qid < nb.level

/-- Spec predicate: scanning element qid in boundary mode writes ghost flag
index g, i.e. some neighbor passes the (inclusive) ghost guard and maps to g. -/
def GhostHit (geo : Geom) (bt : Btype) (m : Mesh) (qid g : Nat) : Prop :=
  ∃ dir ∈ List.range (nDirs geo bt), ∃ nb ∈ m.neighbors qid dir,
    (m.local_num_quadrants ≤ nb.qid ∧
     nb.qid ≤ m.local_num_quadrants + m.ghost_num_quadrants ∧
     nb.level < m.quad_level qid) ∧
    nb.qid - m.local_num_quadrants = g

/-- Spec predicate of P2: ghost g appears among some owned element's neighbors
with the ghost strictly coarser than that element. -/
def GhostFlagged (geo : Geom) (bt : Btype) (m : Mesh) (g : Nat) : Prop :=
  ∃ q ∈ List.range m.local_num_quadrants, ∃ dir ∈ List.range (nDirs geo bt),
    ∃ nb ∈ m.neighbors q dir,
      nb.qid = m.local_num_quadrants + g ∧ m.ghost_level g < m.quad_level q

instance (geo : Geom) (bt : Btype) (m : Mesh) (qid : Nat) :
    Decidable (FinerNb geo bt m qid) := by
  unfold FinerNb
  infer_instance

instance (geo : Geom) (bt : Btype) (m : Mesh) (qid g : Nat) :
    Decidable (GhostHit geo bt m qid g) := by
  unfold GhostHit
  infer_instance

instance (geo : Geom) (bt : Btype) (m : Mesh) (g : Nat) :
    Decidable (GhostFlagged geo bt m g) := by
  unfold GhostFlagged
  infer_instance

/-- Spec formula of the mirror resolver (P7): some direction yields a ghost
neighbor owned by the target rank with a negative encoding. -/
def specMirrorHit (geo : Geom) (bt : Btype) (m : Mesh) (proc qid : Nat) : Bool :=
  (List.range (nDirs geo bt)).any fun dir =>
    (m.neighbors qid dir).any fun nb =>
      decide (m.local_num_quadrants ≤ nb.qid) &&
      decide (nb.qid < m.local_num_quadrants + m.ghost_num_quadrants) &&
      decide (m.ghost_to_proc (nb.qid - m.local_num_quadrants) = proc) &&
      decide (nb.enc < 0)

/-- The real-offset formula exactly as spec property P4 words it: the number of
earlier owned elements of the same level, plus CHILDREN times the number of
earlier owned elements with the same level that host virtuals whose virtual
level equals the element's level. -/
def specP4_qreal_offset (geo : Geom) (m : Mesh) (v : PVirtual) (q : Nat) : Int :=
  ((cntP q (fun i => decide (m.quad_level i = m.quad_level q)) +
    geo.children * cntP q (fun i =>
      decide (m.quad_level i = m.quad_level q) &&
      decide (0 ≤ v.virtual_qflags i) &&
      decide (m.quad_level i + 1 = m.quad_level q)) : Nat) : Int)

/-- The mesh contracts the classifier relies on: an element routed through
interior mode borders no ghosts, and a ghost-range neighbor's reported level is
the ghost's actual level. -/
structure MeshWF (geo : Geom) (bt : Btype) (m : Mesh) : Prop where
  interior_no_ghost : ∀ q, q < m.local_num_quadrants →
    ∀ dir, dir < nDirs geo bt → ∀ nb ∈ m.neighbors q dir,
      routeInner m q = true → nb.qid < m.local_num_quadrants
  level_consistent : ∀ q, q < m.local_num_quadrants →
    ∀ dir, dir < nDirs geo bt → ∀ nb ∈ m.neighbors q dir,
      m.local_num_quadrants ≤ nb.qid →
        nb.level = m.ghost_level (nb.qid - m.local_num_quadrants)

/-- A tiny geometry for concrete runs: one face direction, four children. -/
def geoTiny : Geom :=
  ⟨1, 0, 4, 3⟩

/-- A two-element fixture with one ghost: owned element 0 at level 0 sees the
finer owned element 1; element 1 at level 1 sees the coarser ghost (id 2). -/
def meshW : Mesh where
  local_num_quadrants := 2
  ghost_num_quadrants := 1
  quad_level := fun q => if q = 0 then 0 else 1
  ghost_level := fun _ => 0
  neighbors := fun q dir =>
    if q = 0 ∧ dir = 0 then [⟨1, 1, 1⟩]
    else if q = 1 ∧ dir = 0 then [⟨0, -1, 2⟩]
    else []
  parallel_boundary := none
  ghost_to_proc := fun _ => 0
  mirror_qid := fun _ => 0

/-- One owned level-0 element whose only neighbor is a finer ghost with
negative encoding, owned by rank 0; mirror slot 0 holds that element. -/
def meshC1 : Mesh where
  local_num_quadrants := 1
  ghost_num_quadrants := 1
  quad_level := fun _ => 0
  ghost_level := fun _ => 1
  neighbors := fun q dir => if q = 0 ∧ dir = 0 then [⟨1, -1, 1⟩] else []
  parallel_boundary := none
  ghost_to_proc := fun _ => 0
  mirror_qid := fun _ => 0

/-- One rank whose mirror slots are exactly slot 0. -/
def glC1 : GhostLayer :=
  ⟨1, fun p => if p = 0 then 0 else 1⟩

/-- An augmentation state whose owned flags all carry the token 0. -/
def vTokenA : PVirtual where
  btype := Btype.face
  local_num_quadrants := 1
  ghost_num_quadrants := 1
  virtual_qflags := fun _ => 0
  virtual_gflags := fun _ => -1
  has_level_lists := false
  quad_qreal_offset := fun _ => -1
  quad_qvirtual_offset := fun _ => -1
  quad_greal_offset := fun _ => -1
  quad_gvirtual_offset := fun _ => -1
  virtual_qlevels := fun _ => []
  virtual_glevels := fun _ => []

/-- The same augmentation state with all owned tokens 1 instead of 0: it
agrees with vTokenA on which flags are nonnegative. -/
def vTokenB : PVirtual :=
  { vTokenA with virtual_qflags := fun _ => 1 }

/-- Invariant of the owned scan after processing elements 0..k-1, for the
route-independent components: the rolling token equals the number of hosts seen
so far minus one, processed flags carry the running token (hence are
nonnegative) exactly for hosts, unprocessed flags are still -1, and a ghost
flag is 1 exactly when some processed boundary-routed element hit it. -/
structure Pass1Core (geo : Geom) (bt : Btype) (m : Mesh) (route : Nat → Bool)
    (k : Nat) (s : BuildState) : Prop where
  lastv : s.last_virtual = (cntP k (hasFinerNb geo bt m) : Int) - 1
  qflags_pos : ∀ q, q < k → hasFinerNb geo bt m q = true →
    s.virtual_qflags q = (cntP q (hasFinerNb geo bt m) : Int)
  qflags_neg : ∀ q, q < k → hasFinerNb geo bt m q = false →
    s.virtual_qflags q = -1
  qflags_todo : ∀ q, k ≤ q → s.virtual_qflags q = -1
  gflags_pos : ∀ g, (∃ q, q < k ∧ route q = false ∧ GhostHit geo bt m q g) →
    s.virtual_gflags g = 1
  gflags_neg : ∀ g, (¬ ∃ q, q < k ∧ route q = false ∧ GhostHit geo bt m q g) →
    s.virtual_gflags g = -1

/-- Invariant of the owned scan for the level-list components (present when
compute_level_lists is on): the per-level counters count processed elements by
level, the offsets recorded for processed elements satisfy the interleaving
formula real + CHILDREN * virt over their predecessors, and each level list
holds the processed hosts of the previous level in ascending order. -/
structure Pass1Lists (geo : Geom) (bt : Btype) (m : Mesh) (k : Nat)
    (s : BuildState) : Prop where
  lreal : ∀ l, s.lq_per_level_real l =
    cntP k (fun q => decide (m.quad_level q = l))
  lvirt : ∀ l, s.lq_per_level_virt l =
    cntP k (fun q => decide (m.quad_level q + 1 = l) && hasFinerNb geo bt m q)
  qreal_done : ∀ q, q < k → s.quad_qreal_offset q =
    ((cntP q (fun i => decide (m.quad_level i = m.quad_level q)) +
      geo.children * cntP q (fun i =>
        decide (m.quad_level i + 1 = m.quad_level q) && hasFinerNb geo bt m i) : Nat) : Int)
  qreal_todo : ∀ q, k ≤ q → s.quad_qreal_offset q = -1
  qvirt_pos : ∀ q, q < k → hasFinerNb geo bt m q = true →
    s.quad_qvirtual_offset q =
      ((cntP q (fun i => decide (m.quad_level i = m.quad_level q + 1)) +
        geo.children * cntP q (fun i =>
          decide (m.quad_level i = m.quad_level q) && hasFinerNb geo bt m i) : Nat) : Int)
  qvirt_neg : ∀ q, q < k → hasFinerNb geo bt m q = false →
    s.quad_qvirtual_offset q = -1
  qvirt_todo : ∀ q, k ≤ q → s.quad_qvirtual_offset q = -1
  qlev : ∀ l, s.virtual_qlevels l =
    filP k (fun q => decide (m.quad_level q + 1 = l) && hasFinerNb geo bt m q)

/-- Invariant of the ghost scan after processing ghosts 0..k-1, for the flag
components: the fresh counter counts marked processed ghosts, each marked
processed ghost now carries the dense index counting its marked predecessors,
unmarked ghosts stay -1 and unprocessed ghosts still hold their pass-1 value. -/
structure Pass2Core (m : Mesh) (gf0 : Nat → Int) (k : Nat)
    (s : GhostState) : Prop where
  lastv : s.last_virtual = (cntP k (fun g => decide (gf0 g ≠ -1)) : Int)
  gflags_pos : ∀ g, g < k → gf0 g ≠ -1 →
    s.virtual_gflags g = (cntP g (fun i => decide (gf0 i ≠ -1)) : Int)
  gflags_neg : ∀ g, g < k → gf0 g = -1 → s.virtual_gflags g = -1
  gflags_todo : ∀ g, k ≤ g → s.virtual_gflags g = gf0 g

/-- Invariant of the ghost scan for the level-list components. -/
structure Pass2Lists (geo : Geom) (m : Mesh) (gf0 : Nat → Int) (k : Nat)
    (s : GhostState) : Prop where
  greal_ctr : ∀ l, s.gq_per_level_real l =
    cntP k (fun g => decide (m.ghost_level g = l))
  gvirt_ctr : ∀ l, s.gq_per_level_virt l =
    cntP k (fun g => decide (m.ghost_level g + 1 = l) && decide (gf0 g ≠ -1))
  greal_done : ∀ g, g < k → s.quad_greal_offset g =
    ((cntP g (fun i => decide (m.ghost_level i = m.ghost_level g)) +
      geo.children * cntP g (fun i =>
        decide (m.ghost_level i + 1 = m.ghost_level g) && decide (gf0 i ≠ -1)) : Nat) : Int)
  greal_todo : ∀ g, k ≤ g → s.quad_greal_offset g = -1
  gvirt_pos : ∀ g, g < k → gf0 g ≠ -1 →
    s.quad_gvirtual_offset g =
      ((cntP g (fun i => decide (m.ghost_level i = m.ghost_level g + 1)) +
        geo.children * cntP g (fun i =>
          decide (m.ghost_level i = m.ghost_level g) && decide (gf0 i ≠ -1)) : Nat) : Int)
  gvirt_neg : ∀ g, g < k → gf0 g = -1 → s.quad_gvirtual_offset g = -1
  gvirt_todo : ∀ g, k ≤ g → s.quad_gvirtual_offset g = -1
  glev : ∀ l, s.virtual_glevels l =
    filP k (fun g => decide (m.ghost_level g + 1 = l) && decide (gf0 g ≠ -1))

theorem cntP_succ (k : Nat) (p : Nat → Bool) :
    cntP (k + 1) p = cntP k p + (if p k then 1 else 0) := by
  simp [cntP, List.range_succ, List.countP_append, List.countP_cons]

theorem cntP_congr (k : Nat) (p q : Nat → Bool)
    (h : ∀ i, i < k → p i = q i) : cntP k p = cntP k q := by
  induction k with
  | zero => rfl
  | succ k ih =>
      rw [cntP_succ, cntP_succ, ih (fun i hi => h i (Nat.lt_succ_of_lt hi)),
        h k (Nat.lt_succ_self k)]

theorem filP_succ (k : Nat) (p : Nat → Bool) :
    filP (k + 1) p = filP k p ++ if p k then [k] else [] := by
  by_cases hp : p k <;> simp [filP, List.range_succ, List.filter_append, hp]

theorem filP_congr (k : Nat) (p q : Nat → Bool)
    (h : ∀ i, i < k → p i = q i) : filP k p = filP k q := by
  induction k with
  | zero => rfl
  | succ k ih =>
      rw [filP_succ, filP_succ, ih (fun i hi => h i (Nat.lt_succ_of_lt hi)),
        h k (Nat.lt_succ_self k)]

theorem scan_fst (lq gq level : Nat) (ns : List Neighbor)
    (acc : Bool × (Nat → Int)) :
    (ns.foldl (scanStep lq gq level) acc).1 =
      (acc.1 || ns.any fun nb => decide (level < nb.level)) := by
  induction ns generalizing acc with
  | nil => simp
  | cons nb tl ih =>
      simp only [List.foldl_cons, List.any_cons]
      rw [ih]
      by_cases h1 : level < nb.level
      · simp [scanStep, h1]
      · by_cases h2 : lq ≤ nb.qid ∧ nb.qid ≤ lq + gq ∧ nb.level < level
        · simp [scanStep, h1, h2]
        · simp [scanStep, h1, h2]

theorem scan_snd (lq gq level : Nat) (ns : List Neighbor)
    (acc : Bool × (Nat → Int)) (g : Nat) :
    (ns.foldl (scanStep lq gq level) acc).2 g =
      if ∃ nb ∈ ns, (lq ≤ nb.qid ∧ nb.qid ≤ lq + gq ∧ nb.level < level) ∧
          nb.qid - lq = g
      then 1 else acc.2 g := by
  induction ns generalizing acc with
  | nil => simp
  | cons nb tl ih =>
      simp only [List.foldl_cons]
      rw [ih]
      simp only [List.exists_mem_cons_iff]
      by_cases h1 : level < nb.level
      · have hng : ¬ ((lq ≤ nb.qid ∧ nb.qid ≤ lq + gq ∧ nb.level < level) ∧
            nb.qid - lq = g) := by
          rintro ⟨⟨_, _, hc⟩, _⟩; omega
        by_cases h2 : ∃ x ∈ tl, (lq ≤ x.qid ∧ x.qid ≤ lq + gq ∧ x.level < level) ∧
            x.qid - lq = g <;>
          simp [scanStep, h1, h2, hng]
      · by_cases h2 : lq ≤ nb.qid ∧ nb.qid ≤ lq + gq ∧ nb.level < level
        · by_cases h3 : nb.qid - lq = g
          · have hupd : (Function.update acc.2 (nb.qid - lq) 1) g = 1 := by
              rw [h3]; simp
            by_cases h4 : ∃ x ∈ tl, (lq ≤ x.qid ∧ x.qid ≤ lq + gq ∧
                x.level < level) ∧ x.qid - lq = g <;>
              simp [scanStep, h1, h2, h3, h4, hupd]
          · have hupd : (Function.update acc.2 (nb.qid - lq) 1) g = acc.2 g := by
              exact Function.update_noteq (fun hc => h3 hc.symm) _ _
            by_cases h4 : ∃ x ∈ tl, (lq ≤ x.qid ∧ x.qid ≤ lq + gq ∧
                x.level < level) ∧ x.qid - lq = g <;>
              simp [scanStep, h1, h2, h3, h4, hupd]
        · by_cases h4 : ∃ x ∈ tl, (lq ≤ x.qid ∧ x.qid ≤ lq + gq ∧
              x.level < level) ∧ x.qid - lq = g <;>
            simp [scanStep, h1, h2, h4]

theorem scanDirList_fst (m : Mesh) (qid : Nat) (dirs : List Nat)
    (acc : Bool × (Nat → Int)) :
    (scanDirList m qid dirs acc).1 =
      (acc.1 || dirs.any fun dir => (m.neighbors qid dir).any fun nb =>
        decide (m.quad_level qid < nb.level)) := by
  induction dirs generalizing acc with
  | nil => simp [scanDirList]
  | cons d tl ih =>
      simp only [scanDirList, List.foldl_cons, List.any_cons] at *
      rw [ih, scan_fst]
      simp [Bool.or_assoc]

theorem scanDirList_snd (m : Mesh) (qid : Nat) (dirs : List Nat)
    (acc : Bool × (Nat → Int)) (g : Nat) :
    (scanDirList m qid dirs acc).2 g =
      if ∃ dir ∈ dirs, ∃ nb ∈ m.neighbors qid dir,
          (m.local_num_quadrants ≤ nb.qid ∧
           nb.qid ≤ m.local_num_quadrants + m.ghost_num_quadrants ∧
           nb.level < m.quad_level qid) ∧
          nb.qid - m.local_num_quadrants = g
      then 1 else acc.2 g := by
  induction dirs generalizing acc with
  | nil => simp [scanDirList]
  | cons d tl ih =>
      simp only [scanDirList, List.foldl_cons] at *
      rw [ih, scan_snd]
      simp only [List.exists_mem_cons_iff]
      by_cases h1 : ∃ nb ∈ m.neighbors qid d,
          (m.local_num_quadrants ≤ nb.qid ∧
           nb.qid ≤ m.local_num_quadrants + m.ghost_num_quadrants ∧
           nb.level < m.quad_level qid) ∧
          nb.qid - m.local_num_quadrants = g <;>
        by_cases h2 : ∃ dir ∈ tl, ∃ nb ∈ m.neighbors qid dir,
            (m.local_num_quadrants ≤ nb.qid ∧
             nb.qid ≤ m.local_num_quadrants + m.ghost_num_quadrants ∧
             nb.level < m.quad_level qid) ∧
            nb.qid - m.local_num_quadrants = g <;>
        simp [h1, h2]

theorem hv_boundary_fst (geo : Geom) (bt : Btype) (m : Mesh) (qid : Nat)
    (gf : Nat → Int) :
    (scanDirList m qid (List.range (nDirs geo bt)) (false, gf)).1 =
      hasFinerNb geo bt m qid := by
  rw [scanDirList_fst]
  simp [hasFinerNb]

theorem hv_boundary_snd (geo : Geom) (bt : Btype) (m : Mesh) (qid : Nat)
    (gf : Nat → Int) (g : Nat) :
    (scanDirList m qid (List.range (nDirs geo bt)) (false, gf)).2 g =
      if GhostHit geo bt m qid g then 1 else gf g := by
  rw [scanDirList_snd]
  rfl

theorem bk_qflags (geo : Geom) (cll : Bool) (qid level : Nat) (hv : Bool)
    (s : BuildState) :
    (bookkeepOwned geo cll qid level hv s).virtual_qflags =
      if hv then Function.update s.virtual_qflags qid (s.last_virtual + 1)
      else s.virtual_qflags := by
  cases cll <;> cases hv <;> simp [bookkeepOwned]

theorem bk_lastv (geo : Geom) (cll : Bool) (qid level : Nat) (hv : Bool)
    (s : BuildState) :
    (bookkeepOwned geo cll qid level hv s).last_virtual =
      if hv then s.last_virtual + 1 else s.last_virtual := by
  cases cll <;> cases hv <;> simp [bookkeepOwned]

theorem bk_gflags (geo : Geom) (cll : Bool) (qid level : Nat) (hv : Bool)
    (s : BuildState) :
    (bookkeepOwned geo cll qid level hv s).virtual_gflags = s.virtual_gflags := by
  cases cll <;> cases hv <;> simp [bookkeepOwned]

theorem bk_lreal (geo : Geom) (qid level : Nat) (hv : Bool) (s : BuildState) :
    (bookkeepOwned geo true qid level hv s).lq_per_level_real =
      Function.update s.lq_per_level_real level (s.lq_per_level_real level + 1) := by
  cases hv <;> simp [bookkeepOwned]

theorem bk_lvirt (geo : Geom) (qid level : Nat) (hv : Bool) (s : BuildState) :
    (bookkeepOwned geo true qid level hv s).lq_per_level_virt =
      if hv then Function.update s.lq_per_level_virt (level + 1)
        (s.lq_per_level_virt (level + 1) + 1)
      else s.lq_per_level_virt := by
  cases hv <;> simp [bookkeepOwned]

theorem bk_qreal (geo : Geom) (qid level : Nat) (hv : Bool) (s : BuildState) :
    (bookkeepOwned geo true qid level hv s).quad_qreal_offset =
      Function.update s.quad_qreal_offset qid
        ((s.lq_per_level_real level + geo.children * s.lq_per_level_virt level : Nat) : Int) := by
  cases hv <;> simp [bookkeepOwned]

theorem bk_qvirt (geo : Geom) (qid level : Nat) (hv : Bool) (s : BuildState) :
    (bookkeepOwned geo true qid level hv s).quad_qvirtual_offset =
      if hv then Function.update s.quad_qvirtual_offset qid
        ((s.lq_per_level_real (level + 1) +
          geo.children * s.lq_per_level_virt (level + 1) : Nat) : Int)
      else s.quad_qvirtual_offset := by
  cases hv <;>
    simp [bookkeepOwned, Function.update_noteq (Nat.succ_ne_self level)]

theorem bk_qlev (geo : Geom) (qid level : Nat) (hv : Bool) (s : BuildState) :
    (bookkeepOwned geo true qid level hv s).virtual_qlevels =
      if hv then Function.update s.virtual_qlevels (level + 1)
        (s.virtual_qlevels (level + 1) ++ [qid])
      else s.virtual_qlevels := by
  cases hv <;> simp [bookkeepOwned]

theorem bk_false_qreal (geo : Geom) (qid level : Nat) (hv : Bool) (s : BuildState) :
    (bookkeepOwned geo false qid level hv s).quad_qreal_offset =
      s.quad_qreal_offset := by
  cases hv <;> simp [bookkeepOwned]

theorem bk_false_qvirt (geo : Geom) (qid level : Nat) (hv : Bool) (s : BuildState) :
    (bookkeepOwned geo false qid level hv s).quad_qvirtual_offset =
      s.quad_qvirtual_offset := by
  cases hv <;> simp [bookkeepOwned]

theorem bk_false_qlev (geo : Geom) (qid level : Nat) (hv : Bool) (s : BuildState) :
    (bookkeepOwned geo false qid level hv s).virtual_qlevels =
      s.virtual_qlevels := by
  cases hv <;> simp [bookkeepOwned]

theorem po_qflags (geo : Geom) (bt : Btype) (cll : Bool) (m : Mesh)
    (route : Nat → Bool) (s : BuildState) (k : Nat) :
    (processOwnedR geo bt cll m route s k).virtual_qflags =
      if hasFinerNb geo bt m k then
        Function.update s.virtual_qflags k (s.last_virtual + 1)
      else s.virtual_qflags := by
  by_cases hr : route k <;>
    simp [processOwnedR, has_virtuals_inner, has_virtuals_parallel_boundary,
      hr, bk_qflags, hv_boundary_fst]

theorem po_lastv (geo : Geom) (bt : Btype) (cll : Bool) (m : Mesh)
    (route : Nat → Bool) (s : BuildState) (k : Nat) :
    (processOwnedR geo bt cll m route s k).last_virtual =
      if hasFinerNb geo bt m k then s.last_virtual + 1 else s.last_virtual := by
  by_cases hr : route k <;>
    simp [processOwnedR, has_virtuals_inner, has_virtuals_parallel_boundary,
      hr, bk_lastv, hv_boundary_fst]

theorem po_gflags (geo : Geom) (bt : Btype) (cll : Bool) (m : Mesh)
    (route : Nat → Bool) (s : BuildState) (k g : Nat) :
    (processOwnedR geo bt cll m route s k).virtual_gflags g =
      if route k then s.virtual_gflags g
      else if GhostHit geo bt m k g then 1 else s.virtual_gflags g := by
  by_cases hr : route k <;>
    simp [processOwnedR, has_virtuals_inner, has_virtuals_parallel_boundary,
      hr, bk_gflags, hv_boundary_snd]

theorem po_lreal (geo : Geom) (bt : Btype) (m : Mesh)
    (route : Nat → Bool) (s : BuildState) (k : Nat) :
    (processOwnedR geo bt true m route s k).lq_per_level_real =
      Function.update s.lq_per_level_real (m.quad_level k)
        (s.lq_per_level_real (m.quad_level k) + 1) := by
  by_cases hr : route k <;>
    simp [processOwnedR, has_virtuals_inner, has_virtuals_parallel_boundary,
      hr, bk_lreal]

theorem po_lvirt (geo : Geom) (bt : Btype) (m : Mesh)
    (route : Nat → Bool) (s : BuildState) (k : Nat) :
    (processOwnedR geo bt true m route s k).lq_per_level_virt =
      if hasFinerNb geo bt m k then
        Function.update s.lq_per_level_virt (m.quad_level k + 1)
          (s.lq_per_level_virt (m.quad_level k + 1) + 1)
      else s.lq_per_level_virt := by
  by_cases hr : route k <;>
    simp [processOwnedR, has_virtuals_inner, has_virtuals_parallel_boundary,
      hr, bk_lvirt, hv_boundary_fst]

theorem po_qreal (geo : Geom) (bt : Btype) (m : Mesh)
    (route : Nat → Bool) (s : BuildState) (k : Nat) :
    (processOwnedR geo bt true m route s k).quad_qreal_offset =
      Function.update s.quad_qreal_offset k
        ((s.lq_per_level_real (m.quad_level k) +
          geo.children * s.lq_per_level_virt (m.quad_level k) : Nat) : Int) := by
  by_cases hr : route k <;>
    simp [processOwnedR, has_virtuals_inner, has_virtuals_parallel_boundary,
      hr, bk_qreal]

theorem po_qvirt (geo : Geom) (bt : Btype) (m : Mesh)
    (route : Nat → Bool) (s : BuildState) (k : Nat) :
    (processOwnedR geo bt true m route s k).quad_qvirtual_offset =
      if hasFinerNb geo bt m k then
        Function.update s.quad_qvirtual_offset k
          ((s.lq_per_level_real (m.quad_level k + 1) +
            geo.children * s.lq_per_level_virt (m.quad_level k + 1) : Nat) : Int)
      else s.quad_qvirtual_offset := by
  by_cases hr : route k <;>
    simp [processOwnedR, has_virtuals_inner, has_virtuals_parallel_boundary,
      hr, bk_qvirt, hv_boundary_fst]

theorem po_qlev (geo : Geom) (bt : Btype) (m : Mesh)
    (route : Nat → Bool) (s : BuildState) (k : Nat) :
    (processOwnedR geo bt true m route s k).virtual_qlevels =
      if hasFinerNb geo bt m k then
        Function.update s.virtual_qlevels (m.quad_level k + 1)
          (s.virtual_qlevels (m.quad_level k + 1) ++ [k])
      else s.virtual_qlevels := by
  by_cases hr : route k <;>
    simp [processOwnedR, has_virtuals_inner, has_virtuals_parallel_boundary,
      hr, bk_qlev, hv_boundary_fst]

theorem po_false_qreal (geo : Geom) (bt : Btype) (m : Mesh)
    (route : Nat → Bool) (s : BuildState) (k : Nat) :
    (processOwnedR geo bt false m route s k).quad_qreal_offset =
      s.quad_qreal_offset := by
  by_cases hr : route k <;>
    simp [processOwnedR, has_virtuals_inner, has_virtuals_parallel_boundary,
      hr, bk_false_qreal]

theorem po_false_qvirt (geo : Geom) (bt : Btype) (m : Mesh)
    (route : Nat → Bool) (s : BuildState) (k : Nat) :
    (processOwnedR geo bt false m route s k).quad_qvirtual_offset =
      s.quad_qvirtual_offset := by
  by_cases hr : route k <;>
    simp [processOwnedR, has_virtuals_inner, has_virtuals_parallel_boundary,
      hr, bk_false_qvirt]

theorem po_false_qlev (geo : Geom) (bt : Btype) (m : Mesh)
    (route : Nat → Bool) (s : BuildState) (k : Nat) :
    (processOwnedR geo bt false m route s k).virtual_qlevels =
      s.virtual_qlevels := by
  by_cases hr : route k <;>
    simp [processOwnedR, has_virtuals_inner, has_virtuals_parallel_boundary,
      hr, bk_false_qlev]

theorem pass1Fold_succ (geo : Geom) (bt : Btype) (cll : Bool) (m : Mesh)
    (route : Nat → Bool) (k : Nat) :
    pass1Fold geo bt cll m route (k + 1) =
      processOwnedR geo bt cll m route (pass1Fold geo bt cll m route k) k := by
  simp [pass1Fold, List.range_succ]

theorem pass1Core_holds (geo : Geom) (bt : Btype) (cll : Bool) (m : Mesh)
    (route : Nat → Bool) :
    ∀ k, Pass1Core geo bt m route k (pass1Fold geo bt cll m route k) := by
  intro k
  induction k with
  | zero =>
      refine ⟨?_, ?_, ?_, ?_, ?_, ?_⟩
      · simp [pass1Fold, initBuildState, cntP]
      · intro q hq _
        exact absurd hq (Nat.not_lt_zero q)
      · intro q hq _
        exact absurd hq (Nat.not_lt_zero q)
      · intro q _
        simp [pass1Fold, initBuildState]
      · intro g hg
        obtain ⟨q, hq, _⟩ := hg
        exact absurd hq (Nat.not_lt_zero q)
      · intro g _
        simp [pass1Fold, initBuildState]
  | succ k ih =>
      rw [pass1Fold_succ]
      refine ⟨?_, ?_, ?_, ?_, ?_, ?_⟩
      · rw [po_lastv]
        by_cases hf : hasFinerNb geo bt m k
        · rw [if_pos hf, ih.lastv, cntP_succ, if_pos hf]
          push_cast
          omega
        · rw [if_neg hf, ih.lastv, cntP_succ, if_neg hf]
          simp
      · intro q hq hfq
        rw [po_qflags]
        rcases Nat.lt_succ_iff_lt_or_eq.mp hq with h | rfl
        · by_cases hf : hasFinerNb geo bt m k
          · rw [if_pos hf, Function.update_noteq (Nat.ne_of_lt h)]
            exact ih.qflags_pos q h hfq
          · rw [if_neg hf]
            exact ih.qflags_pos q h hfq
        · rw [if_pos hfq, Function.update_same, ih.lastv]
          omega
      · intro q hq hfq
        rw [po_qflags]
        rcases Nat.lt_succ_iff_lt_or_eq.mp hq with h | rfl
        · by_cases hf : hasFinerNb geo bt m k
          · rw [if_pos hf, Function.update_noteq (Nat.ne_of_lt h)]
            exact ih.qflags_neg q h hfq
          · rw [if_neg hf]
            exact ih.qflags_neg q h hfq
        · rw [if_neg (by simp [hfq])]
          exact ih.qflags_todo q (Nat.le_refl q)
      · intro q hq
        rw [po_qflags]
        have hne : q ≠ k := by omega
        by_cases hf : hasFinerNb geo bt m k
        · rw [if_pos hf, Function.update_noteq hne]
          exact ih.qflags_todo q (by omega)
        · rw [if_neg hf]
          exact ih.qflags_todo q (by omega)
      · intro g hg
        obtain ⟨q, hq, hr, hit⟩ := hg
        rw [po_gflags]
        by_cases hrk : route k
        · rw [if_pos hrk]
          have hqk : q < k := by
            rcases Nat.lt_succ_iff_lt_or_eq.mp hq with h | rfl
            · exact h
            · rw [hr] at hrk
              exact absurd hrk (by simp)
          exact ih.gflags_pos g ⟨q, hqk, hr, hit⟩
        · rw [if_neg hrk]
          by_cases hk : GhostHit geo bt m k g
          · rw [if_pos hk]
          · rw [if_neg hk]
            have hqk : q < k := by
              rcases Nat.lt_succ_iff_lt_or_eq.mp hq with h | rfl
              · exact h
              · exact absurd hit hk
            exact ih.gflags_pos g ⟨q, hqk, hr, hit⟩
      · intro g hg
        rw [po_gflags]
        have hgk : ¬ ∃ q, q < k ∧ route q = false ∧ GhostHit geo bt m q g := by
          rintro ⟨q, hq, hr, hit⟩
          exact hg ⟨q, Nat.lt_succ_of_lt hq, hr, hit⟩
        by_cases hrk : route k
        · rw [if_pos hrk]
          exact ih.gflags_neg g hgk
        · rw [if_neg hrk]
          have hk : ¬ GhostHit geo bt m k g := fun hit =>
            hg ⟨k, Nat.lt_succ_self k, by simpa using hrk, hit⟩
          rw [if_neg hk]
          exact ih.gflags_neg g hgk

theorem pass1Lists_holds (geo : Geom) (bt : Btype) (m : Mesh)
    (route : Nat → Bool) :
    ∀ k, Pass1Lists geo bt m k (pass1Fold geo bt true m route k) := by
  intro k
  induction k with
  | zero =>
      refine ⟨?_, ?_, ?_, ?_, ?_, ?_, ?_, ?_⟩
      · intro l
        simp [pass1Fold, initBuildState, cntP]
      · intro l
        simp [pass1Fold, initBuildState, cntP]
      · intro q hq
        exact absurd hq (Nat.not_lt_zero q)
      · intro q _
        simp [pass1Fold, initBuildState]
      · intro q hq _
        exact absurd hq (Nat.not_lt_zero q)
      · intro q hq _
        exact absurd hq (Nat.not_lt_zero q)
      · intro q _
        simp [pass1Fold, initBuildState]
      · intro l
        simp [pass1Fold, initBuildState, filP]
  | succ k ih =>
      rw [pass1Fold_succ]
      refine ⟨?_, ?_, ?_, ?_, ?_, ?_, ?_, ?_⟩
      · intro l
        rw [po_lreal]
        by_cases hl : l = m.quad_level k
        · subst hl
          rw [Function.update_same, ih.lreal, cntP_succ]
          simp
        · rw [Function.update_noteq hl, ih.lreal, cntP_succ]
          have hd : decide (m.quad_level k = l) = false := by
            simp [Ne.symm hl]
          rw [hd]
          simp
      · intro l
        rw [po_lvirt]
        by_cases hf : hasFinerNb geo bt m k
        · rw [if_pos hf]
          by_cases hl : l = m.quad_level k + 1
          · subst hl
            rw [Function.update_same, ih.lvirt, cntP_succ]
            simp [hf]
          · rw [Function.update_noteq hl, ih.lvirt, cntP_succ]
            have hd : decide (m.quad_level k + 1 = l) = false := by
              simp [Ne.symm hl]
            rw [hd]
            simp
        · rw [if_neg hf, ih.lvirt, cntP_succ]
          have hd : hasFinerNb geo bt m k = false := by
            simpa using hf
          rw [hd]
          simp
      · intro q hq
        rw [po_qreal]
        rcases Nat.lt_succ_iff_lt_or_eq.mp hq with h | rfl
        · rw [Function.update_noteq (Nat.ne_of_lt h)]
          exact ih.qreal_done q h
        · rw [Function.update_same, ih.lreal, ih.lvirt]
      · intro q hq
        rw [po_qreal]
        have hne : q ≠ k := by omega
        rw [Function.update_noteq hne]
        exact ih.qreal_todo q (by omega)
      · intro q hq hfq
        rw [po_qvirt]
        rcases Nat.lt_succ_iff_lt_or_eq.mp hq with h | rfl
        · by_cases hf : hasFinerNb geo bt m k
          · rw [if_pos hf, Function.update_noteq (Nat.ne_of_lt h)]
            exact ih.qvirt_pos q h hfq
          · rw [if_neg hf]
            exact ih.qvirt_pos q h hfq
        · rw [if_pos hfq, Function.update_same, ih.lreal, ih.lvirt]
          have hc : cntP q (fun i =>
              decide (m.quad_level i + 1 = m.quad_level q + 1) &&
                hasFinerNb geo bt m i) =
            cntP q (fun i =>
              decide (m.quad_level i = m.quad_level q) &&
                hasFinerNb geo bt m i) := by
            refine cntP_congr q _ _ (fun i _ => ?_)
            rw [show (decide (m.quad_level i + 1 = m.quad_level q + 1)) =
              (decide (m.quad_level i = m.quad_level q)) from
              decide_eq_decide.mpr (by omega)]
          rw [hc]
      · intro q hq hfq
        rw [po_qvirt]
        rcases Nat.lt_succ_iff_lt_or_eq.mp hq with h | rfl
        · by_cases hf : hasFinerNb geo bt m k
          · rw [if_pos hf, Function.update_noteq (Nat.ne_of_lt h)]
            exact ih.qvirt_neg q h hfq
          · rw [if_neg hf]
            exact ih.qvirt_neg q h hfq
        · rw [if_neg (by simp [hfq])]
          exact ih.qvirt_todo q (Nat.le_refl q)
      · intro q hq
        rw [po_qvirt]
        have hne : q ≠ k := by omega
        by_cases hf : hasFinerNb geo bt m k
        · rw [if_pos hf, Function.update_noteq hne]
          exact ih.qvirt_todo q (by omega)
        · rw [if_neg hf]
          exact ih.qvirt_todo q (by omega)
      · intro l
        rw [po_qlev]
        by_cases hf : hasFinerNb geo bt m k
        · rw [if_pos hf]
          by_cases hl : l = m.quad_level k + 1
          · subst hl
            rw [Function.update_same, ih.qlev, filP_succ]
            simp [hf]
          · rw [Function.update_noteq hl, ih.qlev, filP_succ]
            have hd : decide (m.quad_level k + 1 = l) = false := by
              simp [Ne.symm hl]
            rw [hd]
            simp
        · rw [if_neg hf, ih.qlev, filP_succ]
          have hd : hasFinerNb geo bt m k = false := by
            simpa using hf
          rw [hd]
          simp

theorem pg_gflags (geo : Geom) (cll : Bool) (m : Mesh) (s : GhostState)
    (gid : Nat) :
    (processGhost geo cll m s gid).virtual_gflags =
      if s.virtual_gflags gid ≠ -1 then
        Function.update s.virtual_gflags gid s.last_virtual
      else s.virtual_gflags := by
  by_cases h : s.virtual_gflags gid ≠ -1 <;>
    cases cll <;> simp [processGhost, h]

theorem pg_lastv (geo : Geom) (cll : Bool) (m : Mesh) (s : GhostState)
    (gid : Nat) :
    (processGhost geo cll m s gid).last_virtual =
      if s.virtual_gflags gid ≠ -1 then s.last_virtual + 1
      else s.last_virtual := by
  by_cases h : s.virtual_gflags gid ≠ -1 <;>
    cases cll <;> simp [processGhost, h]

theorem pg_greal_ctr (geo : Geom) (m : Mesh) (s : GhostState) (gid : Nat) :
    (processGhost geo true m s gid).gq_per_level_real =
      Function.update s.gq_per_level_real (m.ghost_level gid)
        (s.gq_per_level_real (m.ghost_level gid) + 1) := by
  by_cases h : s.virtual_gflags gid ≠ -1 <;> simp [processGhost, h]

theorem pg_gvirt_ctr (geo : Geom) (m : Mesh) (s : GhostState) (gid : Nat) :
    (processGhost geo true m s gid).gq_per_level_virt =
      if s.virtual_gflags gid ≠ -1 then
        Function.update s.gq_per_level_virt (m.ghost_level gid + 1)
          (s.gq_per_level_virt (m.ghost_level gid + 1) + 1)
      else s.gq_per_level_virt := by
  by_cases h : s.virtual_gflags gid ≠ -1 <;> simp [processGhost, h]

theorem pg_greal (geo : Geom) (m : Mesh) (s : GhostState) (gid : Nat) :
    (processGhost geo true m s gid).quad_greal_offset =
      Function.update s.quad_greal_offset gid
        ((s.gq_per_level_real (m.ghost_level gid) +
          geo.children * s.gq_per_level_virt (m.ghost_level gid) : Nat) : Int) := by
  by_cases h : s.virtual_gflags gid ≠ -1 <;> simp [processGhost, h]

theorem pg_gvirt (geo : Geom) (m : Mesh) (s : GhostState) (gid : Nat) :
    (processGhost geo true m s gid).quad_gvirtual_offset =
      if s.virtual_gflags gid ≠ -1 then
        Function.update s.quad_gvirtual_offset gid
          ((s.gq_per_level_real (m.ghost_level gid + 1) +
            geo.children * s.gq_per_level_virt (m.ghost_level gid + 1) : Nat) : Int)
      else s.quad_gvirtual_offset := by
  by_cases h : s.virtual_gflags gid ≠ -1 <;>
    simp [processGhost, h,
      Function.update_noteq (Nat.succ_ne_self (m.ghost_level gid))]

theorem pg_glev (geo : Geom) (m : Mesh) (s : GhostState) (gid : Nat) :
    (processGhost geo true m s gid).virtual_glevels =
      if s.virtual_gflags gid ≠ -1 then
        Function.update s.virtual_glevels (m.ghost_level gid + 1)
          (s.virtual_glevels (m.ghost_level gid + 1) ++ [gid])
      else s.virtual_glevels := by
  by_cases h : s.virtual_gflags gid ≠ -1 <;> simp [processGhost, h]

theorem pass2Fold_succ (geo : Geom) (cll : Bool) (m : Mesh) (gf0 : Nat → Int)
    (k : Nat) :
    pass2Fold geo cll m gf0 (k + 1) =
      processGhost geo cll m (pass2Fold geo cll m gf0 k) k := by
  simp [pass2Fold, List.range_succ]

theorem pass2Core_holds (geo : Geom) (cll : Bool) (m : Mesh) (gf0 : Nat → Int) :
    ∀ k, Pass2Core m gf0 k (pass2Fold geo cll m gf0 k) := by
  intro k
  induction k with
  | zero =>
      refine ⟨?_, ?_, ?_, ?_⟩
      · simp [pass2Fold, initGhostState, cntP]
      · intro g hg _
        exact absurd hg (Nat.not_lt_zero g)
      · intro g hg _
        exact absurd hg (Nat.not_lt_zero g)
      · intro g _
        simp [pass2Fold, initGhostState]
  | succ k ih =>
      rw [pass2Fold_succ]
      have hk0 : (pass2Fold geo cll m gf0 k).virtual_gflags k = gf0 k :=
        ih.gflags_todo k (Nat.le_refl k)
      refine ⟨?_, ?_, ?_, ?_⟩
      · rw [pg_lastv, hk0]
        by_cases hm : gf0 k ≠ -1
        · rw [if_pos hm, ih.lastv, cntP_succ]
          simp [hm]
        · rw [if_neg hm, ih.lastv, cntP_succ]
          simp only [not_not] at hm
          simp [hm]
      · intro g hg hm
        rw [pg_gflags, hk0]
        rcases Nat.lt_succ_iff_lt_or_eq.mp hg with h | rfl
        · by_cases hmk : gf0 k ≠ -1
          · rw [if_pos hmk, Function.update_noteq (Nat.ne_of_lt h)]
            exact ih.gflags_pos g h hm
          · rw [if_neg hmk]
            exact ih.gflags_pos g h hm
        · rw [if_pos hm, Function.update_same]
          exact ih.lastv
      · intro g hg hm
        rw [pg_gflags, hk0]
        rcases Nat.lt_succ_iff_lt_or_eq.mp hg with h | rfl
        · by_cases hmk : gf0 k ≠ -1
          · rw [if_pos hmk, Function.update_noteq (Nat.ne_of_lt h)]
            exact ih.gflags_neg g h hm
          · rw [if_neg hmk]
            exact ih.gflags_neg g h hm
        · rw [if_neg (by simp [hm]), ih.gflags_todo g (Nat.le_refl g)]
          exact hm
      · intro g hg
        rw [pg_gflags, hk0]
        have hne : g ≠ k := by omega
        by_cases hmk : gf0 k ≠ -1
        · rw [if_pos hmk, Function.update_noteq hne]
          exact ih.gflags_todo g (by omega)
        · rw [if_neg hmk]
          exact ih.gflags_todo g (by omega)

theorem pass2Lists_holds (geo : Geom) (m : Mesh) (gf0 : Nat → Int) :
    ∀ k, Pass2Lists geo m gf0 k (pass2Fold geo true m gf0 k) := by
  intro k
  induction k with
  | zero =>
      refine ⟨?_, ?_, ?_, ?_, ?_, ?_, ?_, ?_⟩
      · intro l
        simp [pass2Fold, initGhostState, cntP]
      · intro l
        simp [pass2Fold, initGhostState, cntP]
      · intro g hg
        exact absurd hg (Nat.not_lt_zero g)
      · intro g _
        simp [pass2Fold, initGhostState]
      · intro g hg _
        exact absurd hg (Nat.not_lt_zero g)
      · intro g hg _
        exact absurd hg (Nat.not_lt_zero g)
      · intro g _
        simp [pass2Fold, initGhostState]
      · intro l
        simp [pass2Fold, initGhostState, filP]
  | succ k ih =>
      rw [pass2Fold_succ]
      have hk0 : (pass2Fold geo true m gf0 k).virtual_gflags k = gf0 k :=
        (pass2Core_holds geo true m gf0 k).gflags_todo k (Nat.le_refl k)
      refine ⟨?_, ?_, ?_, ?_, ?_, ?_, ?_, ?_⟩
      · intro l
        rw [pg_greal_ctr]
        by_cases hl : l = m.ghost_level k
        · subst hl
          rw [Function.update_same, ih.greal_ctr, cntP_succ]
          simp
        · rw [Function.update_noteq hl, ih.greal_ctr, cntP_succ]
          have hd : decide (m.ghost_level k = l) = false := by
            simp [Ne.symm hl]
          rw [hd]
          simp
      · intro l
        rw [pg_gvirt_ctr, hk0]
        by_cases hm : gf0 k ≠ -1
        · rw [if_pos hm]
          by_cases hl : l = m.ghost_level k + 1
          · subst hl
            rw [Function.update_same, ih.gvirt_ctr, cntP_succ]
            simp [hm]
          · rw [Function.update_noteq hl, ih.gvirt_ctr, cntP_succ]
            have hd : decide (m.ghost_level k + 1 = l) = false := by
              simp [Ne.symm hl]
            rw [hd]
            simp
        · rw [if_neg hm, ih.gvirt_ctr, cntP_succ]
          simp only [not_not] at hm
          simp [hm]
      · intro g hg
        rw [pg_greal]
        rcases Nat.lt_succ_iff_lt_or_eq.mp hg with h | rfl
        · rw [Function.update_noteq (Nat.ne_of_lt h)]
          exact ih.greal_done g h
        · rw [Function.update_same, ih.greal_ctr, ih.gvirt_ctr]
      · intro g hg
        rw [pg_greal]
        have hne : g ≠ k := by omega
        rw [Function.update_noteq hne]
        exact ih.greal_todo g (by omega)
      · intro g hg hm
        rw [pg_gvirt, hk0]
        rcases Nat.lt_succ_iff_lt_or_eq.mp hg with h | rfl
        · by_cases hmk : gf0 k ≠ -1
          · rw [if_pos hmk, Function.update_noteq (Nat.ne_of_lt h)]
            exact ih.gvirt_pos g h hm
          · rw [if_neg hmk]
            exact ih.gvirt_pos g h hm
        · rw [if_pos hm, Function.update_same, ih.greal_ctr, ih.gvirt_ctr]
          have hc : cntP g (fun i =>
              decide (m.ghost_level i + 1 = m.ghost_level g + 1) &&
                decide (gf0 i ≠ -1)) =
            cntP g (fun i =>
              decide (m.ghost_level i = m.ghost_level g) &&
                decide (gf0 i ≠ -1)) := by
            refine cntP_congr g _ _ (fun i _ => ?_)
            rw [show (decide (m.ghost_level i + 1 = m.ghost_level g + 1)) =
              (decide (m.ghost_level i = m.ghost_level g)) from
              decide_eq_decide.mpr (by omega)]
          rw [hc]
      · intro g hg hm
        rw [pg_gvirt, hk0]
        rcases Nat.lt_succ_iff_lt_or_eq.mp hg with h | rfl
        · by_cases hmk : gf0 k ≠ -1
          · rw [if_pos hmk, Function.update_noteq (Nat.ne_of_lt h)]
            exact ih.gvirt_neg g h hm
          · rw [if_neg hmk]
            exact ih.gvirt_neg g h hm
        · rw [if_neg (by simp [hm])]
          exact ih.gvirt_todo g (Nat.le_refl g)
      · intro g hg
        rw [pg_gvirt, hk0]
        have hne : g ≠ k := by omega
        by_cases hmk : gf0 k ≠ -1
        · rw [if_pos hmk, Function.update_noteq hne]
          exact ih.gvirt_todo g (by omega)
        · rw [if_neg hmk]
          exact ih.gvirt_todo g (by omega)
      · intro l
        rw [pg_glev, hk0]
        by_cases hm : gf0 k ≠ -1
        · rw [if_pos hm]
          by_cases hl : l = m.ghost_level k + 1
          · subst hl
            rw [Function.update_same, ih.glev, filP_succ]
            simp [hm]
          · rw [Function.update_noteq hl, ih.glev, filP_succ]
            have hd : decide (m.ghost_level k + 1 = l) = false := by
              simp [Ne.symm hl]
            rw [hd]
            simp
        · rw [if_neg hm, ih.glev, filP_succ]
          simp only [not_not] at hm
          simp [hm]

theorem hasFinerNb_iff (geo : Geom) (bt : Btype) (m : Mesh) (qid : Nat) :
    hasFinerNb geo bt m qid = true ↔ FinerNb geo bt m qid := by
  simp [hasFinerNb, FinerNb, List.any_eq_true]

theorem newext_qflags (geo : Geom) (m : Mesh) (bt : Btype) (cll : Bool) :
    (p4est_virtual_new_ext geo m bt cll).virtual_qflags =
      (pass1Fold geo bt cll m (routeInner m) m.local_num_quadrants).virtual_qflags :=
  rfl

theorem newext_gflags (geo : Geom) (m : Mesh) (bt : Btype) (cll : Bool) :
    (p4est_virtual_new_ext geo m bt cll).virtual_gflags =
      (pass2Fold geo cll m
        (pass1Fold geo bt cll m (routeInner m) m.local_num_quadrants).virtual_gflags
        m.ghost_num_quadrants).virtual_gflags :=
  rfl

theorem newext_qreal (geo : Geom) (m : Mesh) (bt : Btype) (cll : Bool) :
    (p4est_virtual_new_ext geo m bt cll).quad_qreal_offset =
      (pass1Fold geo bt cll m (routeInner m) m.local_num_quadrants).quad_qreal_offset :=
  rfl

theorem newext_qvirt (geo : Geom) (m : Mesh) (bt : Btype) (cll : Bool) :
    (p4est_virtual_new_ext geo m bt cll).quad_qvirtual_offset =
      (pass1Fold geo bt cll m (routeInner m) m.local_num_quadrants).quad_qvirtual_offset :=
  rfl

theorem newext_qlevels (geo : Geom) (m : Mesh) (bt : Btype) (cll : Bool) :
    (p4est_virtual_new_ext geo m bt cll).virtual_qlevels =
      (pass1Fold geo bt cll m (routeInner m) m.local_num_quadrants).virtual_qlevels :=
  rfl

theorem newext_greal (geo : Geom) (m : Mesh) (bt : Btype) (cll : Bool) :
    (p4est_virtual_new_ext geo m bt cll).quad_greal_offset =
      (pass2Fold geo cll m
        (pass1Fold geo bt cll m (routeInner m) m.local_num_quadrants).virtual_gflags
        m.ghost_num_quadrants).quad_greal_offset :=
  rfl

theorem newext_gvirt (geo : Geom) (m : Mesh) (bt : Btype) (cll : Bool) :
    (p4est_virtual_new_ext geo m bt cll).quad_gvirtual_offset =
      (pass2Fold geo cll m
        (pass1Fold geo bt cll m (routeInner m) m.local_num_quadrants).virtual_gflags
        m.ghost_num_quadrants).quad_gvirtual_offset :=
  rfl

theorem newext_glevels (geo : Geom) (m : Mesh) (bt : Btype) (cll : Bool) :
    (p4est_virtual_new_ext geo m bt cll).virtual_glevels =
      (pass2Fold geo cll m
        (pass1Fold geo bt cll m (routeInner m) m.local_num_quadrants).virtual_gflags
        m.ghost_num_quadrants).virtual_glevels :=
  rfl

theorem pass1_nolists (geo : Geom) (bt : Btype) (m : Mesh) (route : Nat → Bool) :
    ∀ k,
      (pass1Fold geo bt false m route k).quad_qreal_offset =
        initBuildState.quad_qreal_offset ∧
      (pass1Fold geo bt false m route k).quad_qvirtual_offset =
        initBuildState.quad_qvirtual_offset ∧
      (pass1Fold geo bt false m route k).virtual_qlevels =
        initBuildState.virtual_qlevels := by
  intro k
  induction k with
  | zero => exact ⟨rfl, rfl, rfl⟩
  | succ k ih =>
      rw [pass1Fold_succ, po_false_qreal, po_false_qvirt, po_false_qlev]
      exact ih

theorem marked_iff_flagged (geo : Geom) (bt : Btype) (cll : Bool) (m : Mesh)
    (hm : MeshWF geo bt m) (g : Nat) (hg : g < m.ghost_num_quadrants) :
    (pass1Fold geo bt cll m (routeInner m) m.local_num_quadrants).virtual_gflags g ≠ -1 ↔
      GhostFlagged geo bt m g := by
  have h := pass1Core_holds geo bt cll m (routeInner m) m.local_num_quadrants
  constructor
  · intro hne
    by_cases hex : ∃ q, q < m.local_num_quadrants ∧ routeInner m q = false ∧
        GhostHit geo bt m q g
    · obtain ⟨q, hq, _, dir, hdir, nb, hnb, ⟨hle, _, hlvl⟩, hid⟩ := hex
      have hqid : nb.qid = m.local_num_quadrants + g := by omega
      have hcons : nb.level = m.ghost_level (nb.qid - m.local_num_quadrants) :=
        hm.level_consistent q hq dir (List.mem_range.mp hdir) nb hnb hle
      rw [hid] at hcons
      exact ⟨q, List.mem_range.mpr hq, dir, hdir, nb, hnb, hqid, by omega⟩
    · exact absurd (h.gflags_neg g hex) hne
  · intro hfl
    obtain ⟨q, hq, dir, hdir, nb, hnb, hqid, hlvl⟩ := hfl
    have hqL : q < m.local_num_quadrants := List.mem_range.mp hq
    have hle : m.local_num_quadrants ≤ nb.qid := by omega
    have hroute : routeInner m q = false := by
      by_contra hr
      have hr' : routeInner m q = true := by simpa using hr
      have := hm.interior_no_ghost q hqL dir (List.mem_range.mp hdir) nb hnb hr'
      omega
    have hcons : nb.level = m.ghost_level (nb.qid - m.local_num_quadrants) :=
      hm.level_consistent q hqL dir (List.mem_range.mp hdir) nb hnb hle
    have hhit : GhostHit geo bt m q g := by
      refine ⟨dir, hdir, nb, hnb, ⟨hle, by omega, ?_⟩, by omega⟩
      rw [hcons, hqid]
      simpa using hlvl
    rw [h.gflags_pos g ⟨q, hqL, hroute, hhit⟩]
    omega

theorem final_gflags_nonneg_iff (geo : Geom) (bt : Btype) (cll : Bool) (m : Mesh)
    (g : Nat) (hg : g < m.ghost_num_quadrants) :
    0 ≤ (p4est_virtual_new_ext geo m bt cll).virtual_gflags g ↔
      (pass1Fold geo bt cll m (routeInner m) m.local_num_quadrants).virtual_gflags g ≠ -1 := by
  have h2 := pass2Core_holds geo cll m
    (pass1Fold geo bt cll m (routeInner m) m.local_num_quadrants).virtual_gflags
    m.ghost_num_quadrants
  rw [newext_gflags]
  by_cases hmk : (pass1Fold geo bt cll m (routeInner m)
      m.local_num_quadrants).virtual_gflags g ≠ -1
  · rw [h2.gflags_pos g hg hmk]
    simp [hmk]
  · simp only [not_not] at hmk
    rw [h2.gflags_neg g hg hmk]
    simp [hmk]

/-- C3: after construction, an owned element's virtual_qflags entry is
nonnegative exactly when some neighbor returned in some direction of the
connect type is strictly finer than the element, whichever classifier mode the
element was routed through. -/
theorem qflags_classification (geo : Geom) (bt : Btype) (cll : Bool) (m : Mesh)
    (q : Nat) (hq : q < m.local_num_quadrants) :
    0 ≤ (p4est_virtual_new_ext geo m bt cll).virtual_qflags q ↔
      FinerNb geo bt m q := by
  have h := pass1Core_holds geo bt cll m (routeInner m) m.local_num_quadrants
  rw [newext_qflags]
  constructor
  · intro hpos
    rw [← hasFinerNb_iff]
    by_contra hf
    have hf' : hasFinerNb geo bt m q = false := by simpa using hf
    rw [h.qflags_neg q hq hf'] at hpos
    omega
  · intro hfin
    rw [h.qflags_pos q hq ((hasFinerNb_iff geo bt m q).mpr hfin)]
    exact Int.natCast_nonneg _

/-- C4: after construction, a ghost's virtual_gflags entry is nonnegative
exactly when some owned element sees that ghost among its neighbors strictly
coarser than itself, and pass 2 rewrote the marked entries to consecutive dense
indices in ascending ghost order (each entry counts the marked ghosts before
it). -/
theorem ghost_flag_symmetry (geo : Geom) (bt : Btype) (cll : Bool) (m : Mesh)
    (hm : MeshWF geo bt m) (g : Nat) (hg : g < m.ghost_num_quadrants) :
    (0 ≤ (p4est_virtual_new_ext geo m bt cll).virtual_gflags g ↔
      GhostFlagged geo bt m g) ∧
    (0 ≤ (p4est_virtual_new_ext geo m bt cll).virtual_gflags g →
      (p4est_virtual_new_ext geo m bt cll).virtual_gflags g =
        (cntP g (fun i =>
          decide (0 ≤ (p4est_virtual_new_ext geo m bt cll).virtual_gflags i)) : Int)) := by
  constructor
  · rw [final_gflags_nonneg_iff geo bt cll m g hg]
    exact marked_iff_flagged geo bt cll m hm g hg
  · intro hpos
    have hmk := (final_gflags_nonneg_iff geo bt cll m g hg).mp hpos
    have h2 := pass2Core_holds geo cll m
      (pass1Fold geo bt cll m (routeInner m) m.local_num_quadrants).virtual_gflags
      m.ghost_num_quadrants
    rw [newext_gflags, h2.gflags_pos g hg hmk]
    congr 1
    refine cntP_congr g _ _ (fun i hi => ?_)
    have hiG : i < m.ghost_num_quadrants := by omega
    rw [show (decide ((pass1Fold geo bt cll m (routeInner m)
        m.local_num_quadrants).virtual_gflags i ≠ -1)) =
      (decide (0 ≤ (p4est_virtual_new_ext geo m bt cll).virtual_gflags i)) from
      decide_eq_decide.mpr (final_gflags_nonneg_iff geo bt cll m i hiG).symm]
    rfl

/-- C5: pass 1 under any two routing decisions (in particular the interior
short-circuit everywhere versus the full no-early-exit boundary traversal
everywhere) produces identical virtual_qflags, quad_qreal_offset,
quad_qvirtual_offset and virtual_qlevels; the ghost flag arrays can differ only
at an index hit by an element whose routing differs between the two runs. -/
theorem interior_boundary_equiv (geo : Geom) (bt : Btype) (cll : Bool)
    (m : Mesh) (r1 r2 : Nat → Bool) :
    (pass1R geo bt cll m r1).virtual_qflags =
      (pass1R geo bt cll m r2).virtual_qflags ∧
    (pass1R geo bt cll m r1).quad_qreal_offset =
      (pass1R geo bt cll m r2).quad_qreal_offset ∧
    (pass1R geo bt cll m r1).quad_qvirtual_offset =
      (pass1R geo bt cll m r2).quad_qvirtual_offset ∧
    (pass1R geo bt cll m r1).virtual_qlevels =
      (pass1R geo bt cll m r2).virtual_qlevels ∧
    ∀ g, (pass1R geo bt cll m r1).virtual_gflags g ≠
        (pass1R geo bt cll m r2).virtual_gflags g →
      ∃ q, q < m.local_num_quadrants ∧ r1 q ≠ r2 q ∧ GhostHit geo bt m q g := by
  simp only [pass1R]
  have h1 := pass1Core_holds geo bt cll m r1 m.local_num_quadrants
  have h2 := pass1Core_holds geo bt cll m r2 m.local_num_quadrants
  refine ⟨?_, ?_, ?_, ?_, ?_⟩
  · funext q
    by_cases hq : q < m.local_num_quadrants
    · by_cases hf : hasFinerNb geo bt m q
      · rw [h1.qflags_pos q hq hf, h2.qflags_pos q hq hf]
      · have hf' : hasFinerNb geo bt m q = false := by simpa using hf
        rw [h1.qflags_neg q hq hf', h2.qflags_neg q hq hf']
    · rw [h1.qflags_todo q (by omega), h2.qflags_todo q (by omega)]
  · cases cll with
    | false =>
        rw [(pass1_nolists geo bt m r1 m.local_num_quadrants).1,
          (pass1_nolists geo bt m r2 m.local_num_quadrants).1]
    | true =>
        have hl1 := pass1Lists_holds geo bt m r1 m.local_num_quadrants
        have hl2 := pass1Lists_holds geo bt m r2 m.local_num_quadrants
        funext q
        by_cases hq : q < m.local_num_quadrants
        · rw [hl1.qreal_done q hq, hl2.qreal_done q hq]
        · rw [hl1.qreal_todo q (by omega), hl2.qreal_todo q (by omega)]
  · cases cll with
    | false =>
        rw [(pass1_nolists geo bt m r1 m.local_num_quadrants).2.1,
          (pass1_nolists geo bt m r2 m.local_num_quadrants).2.1]
    | true =>
        have hl1 := pass1Lists_holds geo bt m r1 m.local_num_quadrants
        have hl2 := pass1Lists_holds geo bt m r2 m.local_num_quadrants
        funext q
        by_cases hq : q < m.local_num_quadrants
        · by_cases hf : hasFinerNb geo bt m q
          · rw [hl1.qvirt_pos q hq hf, hl2.qvirt_pos q hq hf]
          · have hf' : hasFinerNb geo bt m q = false := by simpa using hf
            rw [hl1.qvirt_neg q hq hf', hl2.qvirt_neg q hq hf']
        · rw [hl1.qvirt_todo q (by omega), hl2.qvirt_todo q (by omega)]
  · cases cll with
    | false =>
        rw [(pass1_nolists geo bt m r1 m.local_num_quadrants).2.2,
          (pass1_nolists geo bt m r2 m.local_num_quadrants).2.2]
    | true =>
        have hl1 := pass1Lists_holds geo bt m r1 m.local_num_quadrants
        have hl2 := pass1Lists_holds geo bt m r2 m.local_num_quadrants
        funext l
        rw [hl1.qlev l, hl2.qlev l]
  · intro g hne
    by_cases hp1 : ∃ q, q < m.local_num_quadrants ∧ r1 q = false ∧
        GhostHit geo bt m q g
    · by_cases hp2 : ∃ q, q < m.local_num_quadrants ∧ r2 q = false ∧
          GhostHit geo bt m q g
      · rw [h1.gflags_pos g hp1, h2.gflags_pos g hp2] at hne
        exact absurd rfl hne
      · obtain ⟨q, hq, hr1, hit⟩ := hp1
        have hr2 : r2 q = true := by
          by_contra hr
          exact hp2 ⟨q, hq, by simpa using hr, hit⟩
        refine ⟨q, hq, ?_, hit⟩
        rw [hr1, hr2]
        simp
    · by_cases hp2 : ∃ q, q < m.local_num_quadrants ∧ r2 q = false ∧
          GhostHit geo bt m q g
      · obtain ⟨q, hq, hr2, hit⟩ := hp2
        have hr1 : r1 q = true := by
          by_contra hr
          exact hp1 ⟨q, hq, by simpa using hr, hit⟩
        refine ⟨q, hq, ?_, hit⟩
        rw [hr1, hr2]
        simp
      · rw [h1.gflags_neg g hp1, h2.gflags_neg g hp2] at hne
        exact absurd rfl hne

theorem final_qflags_decide (geo : Geom) (bt : Btype) (cll : Bool) (m : Mesh)
    (i : Nat) (hi : i < m.local_num_quadrants) :
    decide (0 ≤ (p4est_virtual_new_ext geo m bt cll).virtual_qflags i) =
      hasFinerNb geo bt m i := by
  have h := pass1Core_holds geo bt cll m (routeInner m) m.local_num_quadrants
  rw [newext_qflags]
  by_cases hb : hasFinerNb geo bt m i
  · rw [h.qflags_pos i hi hb, hb]
    simp [Int.natCast_nonneg]
  · have hb' : hasFinerNb geo bt m i = false := by simpa using hb
    rw [h.qflags_neg i hi hb', hb']
    rfl

theorem final_gflags_decide (geo : Geom) (bt : Btype) (cll : Bool) (m : Mesh)
    (i : Nat) (hi : i < m.ghost_num_quadrants) :
    decide (0 ≤ (p4est_virtual_new_ext geo m bt cll).virtual_gflags i) =
      decide ((pass1Fold geo bt cll m (routeInner m)
        m.local_num_quadrants).virtual_gflags i ≠ -1) :=
  decide_eq_decide.mpr (final_gflags_nonneg_iff geo bt cll m i hi)

theorem filP_false (k : Nat) (p : Nat → Bool) (h : ∀ i, i < k → p i = false) :
    filP k p = [] := by
  induction k with
  | zero => rfl
  | succ k ih =>
      rw [filP_succ, ih (fun i hi => h i (Nat.lt_succ_of_lt hi)),
        h k (Nat.lt_succ_self k)]
      simp

/-- C6 (amended): with level lists on, each owned real offset is the number of
same-level predecessors plus CHILDREN times the number of predecessors that
host virtuals at this level, i.e. flagged elements one level coarser (the
second count of spec P4 with the contradictory same-level conjunct removed);
each host's virtual offset satisfies the analogous formula one level up, and
the ghost offsets of pass 2 satisfy the same formulas over ghost ids. -/
theorem offsets_formula (geo : Geom) (bt : Btype) (m : Mesh) :
    (∀ q, q < m.local_num_quadrants →
      (p4est_virtual_new_ext geo m bt true).quad_qreal_offset q =
        ((cntP q (fun i => decide (m.quad_level i = m.quad_level q)) +
          geo.children * cntP q (fun i =>
            decide (m.quad_level i + 1 = m.quad_level q) &&
            decide (0 ≤ (p4est_virtual_new_ext geo m bt true).virtual_qflags i)) : Nat) : Int) ∧
      (0 ≤ (p4est_virtual_new_ext geo m bt true).virtual_qflags q →
        (p4est_virtual_new_ext geo m bt true).quad_qvirtual_offset q =
          ((cntP q (fun i => decide (m.quad_level i = m.quad_level q + 1)) +
            geo.children * cntP q (fun i =>
              decide (m.quad_level i = m.quad_level q) &&
              decide (0 ≤ (p4est_virtual_new_ext geo m bt true).virtual_qflags i)) : Nat) : Int))) ∧
    (∀ g, g < m.ghost_num_quadrants →
      (p4est_virtual_new_ext geo m bt true).quad_greal_offset g =
        ((cntP g (fun i => decide (m.ghost_level i = m.ghost_level g)) +
          geo.children * cntP g (fun i =>
            decide (m.ghost_level i + 1 = m.ghost_level g) &&
            decide (0 ≤ (p4est_virtual_new_ext geo m bt true).virtual_gflags i)) : Nat) : Int) ∧
      (0 ≤ (p4est_virtual_new_ext geo m bt true).virtual_gflags g →
        (p4est_virtual_new_ext geo m bt true).quad_gvirtual_offset g =
          ((cntP g (fun i => decide (m.ghost_level i = m.ghost_level g + 1)) +
            geo.children * cntP g (fun i =>
              decide (m.ghost_level i = m.ghost_level g) &&
              decide (0 ≤ (p4est_virtual_new_ext geo m bt true).virtual_gflags i)) : Nat) : Int))) := by
  have hl := pass1Lists_holds geo bt m (routeInner m) m.local_num_quadrants
  have hgl := pass2Lists_holds geo m
    (pass1Fold geo bt true m (routeInner m) m.local_num_quadrants).virtual_gflags
    m.ghost_num_quadrants
  constructor
  · intro q hq
    constructor
    · have hc : cntP q (fun i =>
          decide (m.quad_level i + 1 = m.quad_level q) && hasFinerNb geo bt m i) =
          cntP q (fun i => decide (m.quad_level i + 1 = m.quad_level q) &&
            decide (0 ≤ (p4est_virtual_new_ext geo m bt true).virtual_qflags i)) := by
        refine cntP_congr q _ _ (fun i hi => ?_)
        rw [final_qflags_decide geo bt true m i (by omega)]
      rw [newext_qreal, hl.qreal_done q hq, hc]
    · intro hpos
      have hb : hasFinerNb geo bt m q = true := by
        rw [← final_qflags_decide geo bt true m q hq]
        simpa using hpos
      have hc : cntP q (fun i =>
          decide (m.quad_level i = m.quad_level q) && hasFinerNb geo bt m i) =
          cntP q (fun i => decide (m.quad_level i = m.quad_level q) &&
            decide (0 ≤ (p4est_virtual_new_ext geo m bt true).virtual_qflags i)) := by
        refine cntP_congr q _ _ (fun i hi => ?_)
        rw [final_qflags_decide geo bt true m i (by omega)]
      rw [newext_qvirt, hl.qvirt_pos q hq hb, hc]
  · intro g hg
    constructor
    · have hc : cntP g (fun i =>
          decide (m.ghost_level i + 1 = m.ghost_level g) &&
          decide ((pass1Fold geo bt true m (routeInner m)
            m.local_num_quadrants).virtual_gflags i ≠ -1)) =
          cntP g (fun i => decide (m.ghost_level i + 1 = m.ghost_level g) &&
            decide (0 ≤ (p4est_virtual_new_ext geo m bt true).virtual_gflags i)) := by
        refine cntP_congr g _ _ (fun i hi => ?_)
        rw [final_gflags_decide geo bt true m i (by omega)]
      rw [newext_greal, hgl.greal_done g hg, hc]
    · intro hpos
      have hmk := (final_gflags_nonneg_iff geo bt true m g hg).mp hpos
      have hc : cntP g (fun i =>
          decide (m.ghost_level i = m.ghost_level g) &&
          decide ((pass1Fold geo bt true m (routeInner m)
            m.local_num_quadrants).virtual_gflags i ≠ -1)) =
          cntP g (fun i => decide (m.ghost_level i = m.ghost_level g) &&
            decide (0 ≤ (p4est_virtual_new_ext geo m bt true).virtual_gflags i)) := by
        refine cntP_congr g _ _ (fun i hi => ?_)
        rw [final_gflags_decide geo bt true m i (by omega)]
      rw [newext_gvirt, hgl.gvirt_pos g hg hmk, hc]

/-- C7: with level lists on, level list l holds, in ascending order, exactly
the owned elements of level l-1 whose flag is nonnegative (so list 0 is
empty), and likewise for the ghost level lists. -/
theorem level_lists_faithful (geo : Geom) (bt : Btype) (m : Mesh) :
    (∀ l, (p4est_virtual_new_ext geo m bt true).virtual_qlevels l =
      filP m.local_num_quadrants (fun q =>
        decide (m.quad_level q + 1 = l) &&
        decide (0 ≤ (p4est_virtual_new_ext geo m bt true).virtual_qflags q))) ∧
    (∀ l, (p4est_virtual_new_ext geo m bt true).virtual_glevels l =
      filP m.ghost_num_quadrants (fun g =>
        decide (m.ghost_level g + 1 = l) &&
        decide (0 ≤ (p4est_virtual_new_ext geo m bt true).virtual_gflags g))) ∧
    (p4est_virtual_new_ext geo m bt true).virtual_qlevels 0 = [] ∧
    (p4est_virtual_new_ext geo m bt true).virtual_glevels 0 = [] := by
  have hl := pass1Lists_holds geo bt m (routeInner m) m.local_num_quadrants
  have hgl := pass2Lists_holds geo m
    (pass1Fold geo bt true m (routeInner m) m.local_num_quadrants).virtual_gflags
    m.ghost_num_quadrants
  refine ⟨?_, ?_, ?_, ?_⟩
  · intro l
    rw [newext_qlevels, hl.qlev l]
    refine filP_congr m.local_num_quadrants _ _ (fun q hq => ?_)
    rw [final_qflags_decide geo bt true m q hq]
  · intro l
    rw [newext_glevels, hgl.glev l]
    refine filP_congr m.ghost_num_quadrants _ _ (fun g hg => ?_)
    rw [final_gflags_decide geo bt true m g hg]
  · rw [newext_qlevels, hl.qlev 0]
    refine filP_false m.local_num_quadrants _ (fun q hq => ?_)
    simp
  · rw [newext_glevels, hgl.glev 0]
    refine filP_false m.ghost_num_quadrants _ (fun g hg => ?_)
    simp

/-- C8: the boundary-mode ghost guard is inclusive: a strictly coarser
neighbor with id exactly L+G passes it and the store targets ghost index G,
one past the last ghost; yet under the mesh contract that neighbor ids stay
strictly below L+G, the scan never touches any ghost flag index at or beyond
G, so every store lands inside the allocated bounds. -/
theorem ghost_guard_inclusive_safe (geo : Geom) (bt : Btype) (cll : Bool)
    (m : Mesh) (route : Nat → Bool)
    (hb : ∀ q, q < m.local_num_quadrants → ∀ dir, dir < nDirs geo bt →
      ∀ nb ∈ m.neighbors q dir,
        nb.qid < m.local_num_quadrants + m.ghost_num_quadrants) :
    (∀ (lq gq lvl : Nat) (acc : Bool × (Nat → Int)) (nb : Neighbor),
      nb.qid = lq + gq → nb.level < lvl →
      scanStep lq gq lvl acc nb = (acc.1, Function.update acc.2 gq 1)) ∧
    (∀ i, m.ghost_num_quadrants ≤ i →
      (pass1R geo bt cll m route).virtual_gflags i = -1) := by
  constructor
  · intro lq gq lvl acc nb hqid hlvl
    have hsub : nb.qid - lq = gq := by omega
    have h1 : ¬ lvl < nb.level := by omega
    have h2 : lq ≤ nb.qid ∧ nb.qid ≤ lq + gq ∧ nb.level < lvl := by omega
    simp [scanStep, h1, h2, hsub]
  · intro i hi
    simp only [pass1R]
    have h := pass1Core_holds geo bt cll m route m.local_num_quadrants
    refine h.gflags_neg i ?_
    rintro ⟨q, hq, _, dir, hdir, nb, hnb, ⟨hle, _, _⟩, hid⟩
    have := hb q hq dir (List.mem_range.mp hdir) nb hnb
    omega

theorem sum_map_addf (l : List Nat) (f g : Nat → Nat) :
    (l.map fun x => f x + g x).sum = (l.map f).sum + (l.map g).sum := by
  induction l with
  | nil => rfl
  | cons a tl ih =>
      simp [ih]
      omega

theorem sum_map_cst (l : List Nat) (c : Nat) :
    (l.map fun _ => c).sum = c * l.length := by
  induction l with
  | nil => rfl
  | cons a tl ih =>
      simp [ih]
      ring

/-- C9: memory accounting round trip: the reported byte count is the two flag
arrays of L+G entries, plus, when level lists exist, the four offset arrays of
2(L+G) entries and the per-level list headers and bodies over all
qmaxlevel+1 levels of both qlevels and glevels, plus the structure header. -/
theorem memory_round_trip (geo : Geom) (szLoc szArr szHdr : Nat)
    (v : PVirtual) :
    p4est_virtual_memory_used geo szLoc szArr szHdr v =
      (v.local_num_quadrants * szLoc + v.ghost_num_quadrants * szLoc) +
      (if v.has_level_lists then
        v.local_num_quadrants * szLoc + v.local_num_quadrants * szLoc +
        v.ghost_num_quadrants * szLoc + v.ghost_num_quadrants * szLoc
       else 0) +
      (if v.has_level_lists then
        ((List.range (geo.qmaxlevel + 1)).map fun l =>
          (szArr + szLoc * (v.virtual_qlevels l).length) +
          (szArr + szLoc * (v.virtual_glevels l).length)).sum
       else 0) +
      szHdr := by
  unfold p4est_virtual_memory_used
  by_cases h : v.has_level_lists
  · simp only [h, if_true, sc_array_memory_used_body]
    have hfun : (fun l => (szArr + szLoc * (v.virtual_qlevels l).length) +
        (szArr + szLoc * (v.virtual_glevels l).length)) =
        (fun l => (szArr + szArr) +
          (szLoc * (v.virtual_qlevels l).length +
           szLoc * (v.virtual_glevels l).length)) := by
      funext l
      ring
    have hsum : ((List.range (geo.qmaxlevel + 1)).map fun l =>
        (szArr + szLoc * (v.virtual_qlevels l).length) +
        (szArr + szLoc * (v.virtual_glevels l).length)).sum =
      (szArr + szArr) * (geo.qmaxlevel + 1) +
        ((List.range (geo.qmaxlevel + 1)).map fun l =>
          szLoc * (v.virtual_qlevels l).length +
          szLoc * (v.virtual_glevels l).length).sum := by
      rw [hfun, sum_map_addf, sum_map_cst, List.length_range]
    rw [hsum]
    ring
  · simp only [h]
    simp
    ring

/-- C10: the mirror-assignment memory accounting reports 0 bytes for every
assignment, in particular for any assignment p4est_virtual_ghost_new builds:
the mirror_proc_virtuals array it owns is never counted. -/
theorem ghost_memory_zero :
    (∀ vg : PVirtualGhost, p4est_virtual_ghost_memory_used vg = 0) ∧
    (∀ (geo : Geom) (m : Mesh) (gl : GhostLayer) (v : PVirtual) (bt : Btype),
      p4est_virtual_ghost_memory_used (p4est_virtual_ghost_new geo m gl v bt) = 0) :=
  ⟨fun _ => rfl, fun _ _ _ _ _ => rfl⟩

/-- C1 (evaluation at the failing input): on meshC1 the single owned element is
the first virtual host, so its token is 0; the spec's resolver condition holds
for rank 0 (a ghost neighbor of rank 0 with negative encoding), yet the
resolver leaves mirror_proc_virtuals[0] = 0 because its guard tests the flag
for being nonzero rather than nonnegative and therefore skips token 0. -/
theorem mirror_skip_bug_eval :
    0 ≤ (p4est_virtual_new_ext geoTiny meshC1 Btype.face false).virtual_qflags
        (meshC1.mirror_qid 0) ∧
    specMirrorHit geoTiny Btype.face meshC1 0 (meshC1.mirror_qid 0) = true ∧
    (p4est_virtual_ghost_new geoTiny meshC1 glC1
      (p4est_virtual_new_ext geoTiny meshC1 Btype.face false)
      Btype.face).mirror_proc_virtuals 0 = 0 := by
  decide

/-- C2 (evaluation at the failing input): two augmentation states that agree on
the sign of every owned flag (all nonnegative) but carry token 0 versus token 1
make the resolver produce different mirror_proc_virtuals arrays, because its
guard distinguishes the token value 0 from other tokens. -/
theorem token_observed_eval :
    (0 ≤ vTokenA.virtual_qflags 0 ↔ 0 ≤ vTokenB.virtual_qflags 0) ∧
    (p4est_virtual_ghost_new geoTiny meshC1 glC1 vTokenA
      Btype.face).mirror_proc_virtuals 0 = 0 ∧
    (p4est_virtual_ghost_new geoTiny meshC1 glC1 vTokenB
      Btype.face).mirror_proc_virtuals 0 = 1 := by
  decide

/-- C6 (counterexample to the spec-P4 wording): on meshW, element 1 at level 1
has real offset 4 = 0 + CHILDREN * 1 because element 0 (level 0, flagged)
advanced the virtual counter of level 1, while the spec-P4 count, which also
demands level(q') = level(q), is empty and yields 0. -/
theorem offsets_p4_counterexample :
    (p4est_virtual_new_ext geoTiny meshW Btype.face true).quad_qreal_offset 1 ≠
      specP4_qreal_offset geoTiny meshW
        (p4est_virtual_new_ext geoTiny meshW Btype.face true) 1 := by
  decide

/-- Witness for C3 at meshW, element 0. -/
theorem qflags_classification_witness :
    0 < meshW.local_num_quadrants ∧
    (0 ≤ (p4est_virtual_new_ext geoTiny meshW Btype.face true).virtual_qflags 0 ↔
      FinerNb geoTiny Btype.face meshW 0) :=
  ⟨by decide, qflags_classification geoTiny Btype.face true meshW 0 (by decide)⟩

/-- Witness for C4 at meshW, ghost 0. -/
theorem ghost_flag_symmetry_witness :
    0 < meshW.ghost_num_quadrants ∧
    ((0 ≤ (p4est_virtual_new_ext geoTiny meshW Btype.face true).virtual_gflags 0 ↔
        GhostFlagged geoTiny Btype.face meshW 0) ∧
      (0 ≤ (p4est_virtual_new_ext geoTiny meshW Btype.face true).virtual_gflags 0 →
        (p4est_virtual_new_ext geoTiny meshW Btype.face true).virtual_gflags 0 =
          (cntP 0 (fun i => decide (0 ≤ (p4est_virtual_new_ext geoTiny meshW
            Btype.face true).virtual_gflags i)) : Int))) :=
  ⟨by decide,
   ghost_flag_symmetry geoTiny Btype.face true meshW ⟨by decide, by decide⟩ 0 (by decide)⟩

/-- Witness for C5 at meshW: all-interior routing versus all-boundary routing
give equal owned flags, and the ghost-flag difference at index 0 is explained
by an element routed differently. -/
theorem interior_boundary_equiv_witness :
    (pass1R geoTiny Btype.face true meshW (fun _ => true)).virtual_qflags =
      (pass1R geoTiny Btype.face true meshW (fun _ => false)).virtual_qflags ∧
    ∃ q, q < meshW.local_num_quadrants ∧
      (fun (_ : Nat) => true) q ≠ (fun (_ : Nat) => false) q ∧
      GhostHit geoTiny Btype.face meshW q 0 :=
  ⟨(interior_boundary_equiv geoTiny Btype.face true meshW
      (fun _ => true) (fun _ => false)).1,
   (interior_boundary_equiv geoTiny Btype.face true meshW
      (fun _ => true) (fun _ => false)).2.2.2.2 0 (by decide)⟩

/-- Witness for C6 at meshW, element 1, whose real offset is 0 + 4 * 1. -/
theorem offsets_formula_witness :
    1 < meshW.local_num_quadrants ∧
    (p4est_virtual_new_ext geoTiny meshW Btype.face true).quad_qreal_offset 1 =
      ((cntP 1 (fun i => decide (meshW.quad_level i = meshW.quad_level 1)) +
        geoTiny.children * cntP 1 (fun i =>
          decide (meshW.quad_level i + 1 = meshW.quad_level 1) &&
          decide (0 ≤ (p4est_virtual_new_ext geoTiny meshW
            Btype.face true).virtual_qflags i)) : Nat) : Int) :=
  ⟨by decide, ((offsets_formula geoTiny Btype.face meshW).1 1 (by decide)).1⟩

/-- Witness for C8: the guard admits the one-past id 3 = L+G of meshW and
writes ghost index 1 = G, while under the mesh contract every index at or
beyond G = 1 stays untouched. -/
theorem ghost_guard_inclusive_safe_witness :
    scanStep 2 1 1 ((false : Bool), fun _ => (0 : Int)) ⟨0, 0, 3⟩ =
      ((false : Bool), Function.update (fun _ => (0 : Int)) 1 1) ∧
    (pass1R geoTiny Btype.face true meshW (fun _ => false)).virtual_gflags 5 = -1 :=
  ⟨(ghost_guard_inclusive_safe geoTiny Btype.face true meshW (fun _ => false)
      (by decide)).1 2 1 1 ((false : Bool), fun _ => (0 : Int)) ⟨0, 0, 3⟩
      (by decide) (by decide),
   (ghost_guard_inclusive_safe geoTiny Btype.face true meshW (fun _ => false)
      (by decide)).2 5 (by decide)⟩
